import Mathlib

/-!
# Drawer, header shadow and smooth scrolling of `script.js`

A shallow embedding of the immediately invoked function of `src/script.js`:
the element registry (`DOM`), the start-up wiring (`init`), the animation
driver (`animate.drawer`), the header watcher and the three event handlers.

The host page is a list of elements in document order, each with its `id`
and its class list.  Browser facilities the script calls (listener tables,
animation frames, timeouts, `querySelector`) are modelled as plain data.
-/

namespace MainWebsite

/-! ## Host document -/

/-- A DOM element is named by its position in document order. -/
abbrev Node := Nat

/-- One element of the host page: its `id` attribute and its class list. -/
structure ElementInfo where
  id : Option String
  classes : List String
deriving DecidableEq, Repr

/-- Values of `document.readyState`. -/
inductive ReadyState where
  | loading
  | interactive
  | complete
deriving DecidableEq, Repr

/-- The host document, and the browser around it, as the script sees them
when it starts: the elements in document order, the element `document.body`
(`none` is `null`: the root has no `body` child), whether the global
`IntersectionObserver` is defined, and `document.readyState`. -/
structure Document where
  nodes : List ElementInfo
  body : Option Node
  hasIntersectionObserver : Bool
  readyState : ReadyState
deriving Repr

/-- First element in document order that satisfies `p`. -/
def findNode (p : ElementInfo → Bool) : List ElementInfo → Option Node
  | [] => none
  | e :: es => if p e then some 0 else (findNode p es).map (· + 1)

/-- The root element `document.documentElement`: first in document order. -/
def Document.documentElement (doc : Document) : Option Node :=
  if doc.nodes.isEmpty then none else some 0

/-- Lookup `document.getElementById(id)`. -/
def Document.getElementById (doc : Document) (id : String) : Option Node :=
  findNode (fun e => decide (e.id = some id)) doc.nodes

/-- Lookup `document.querySelector('.' + cls)` for a single class selector. -/
def Document.queryClass (doc : Document) (cls : String) : Option Node :=
  findNode (fun e => decide (cls ∈ e.classes)) doc.nodes

/-! ## Element registry (lines 3 to 36) -/

/-- The nested `menuIcons` object. -/
structure MenuIcons where
  bars : Option Node
  close : Option Node
deriving DecidableEq, Repr

/-- The `elements` object literal of lines 4 to 14; `none` is `null`. -/
structure Elements where
  html : Option Node
  header : Option Node
  drawer : Option Node
  menuToggle : Option Node
  menuIcons : MenuIcons
  overlay : Option Node
deriving DecidableEq, Repr

/-- Lines 4 to 14: the look-ups that fill `elements`. -/
def lookupElements (doc : Document) : Elements :=
  { html := doc.documentElement
    header := doc.getElementById "mainHeader"
    drawer := doc.getElementById "sideDrawer"
    menuToggle := doc.getElementById "menuToggle"
    menuIcons :=
      { bars := doc.queryClass "menu-bars"
        close := doc.queryClass "menu-x" }
    overlay := doc.getElementById "drawerOverlay" }

/-- Lines 17 to 22: the keys of `Object.entries(elements)`, in insertion
order, each paired with the verdict of the filter callback. -/
def entryVerdicts (e : Elements) : List (String × Bool) :=
  [ ("html", e.html.isNone),
    ("header", e.header.isNone),
    ("drawer", e.drawer.isNone),
    ("menuToggle", e.menuToggle.isNone),
    ("menuIcons", e.menuIcons.bars.isNone || e.menuIcons.close.isNone),
    ("overlay", e.overlay.isNone) ]

/-- Keys of `missingElements`, as passed to `console.warn` on line 25. -/
def missingElements (e : Elements) : List String :=
  ((entryVerdicts e).filter (fun kv => kv.2)).map (fun kv => kv.1)

/-- The frozen `DOM` object: every reference is a real element. -/
structure Dom where
  html : Node
  header : Node
  drawer : Node
  menuToggle : Node
  bars : Node
  close : Node
  overlay : Node
deriving DecidableEq, Repr

/-- The frozen object of line 29, when nothing is missing. -/
def freezeElements (e : Elements) : Option Dom :=
  match e.html, e.header, e.drawer, e.menuToggle, e.menuIcons.bars, e.menuIcons.close,
    e.overlay with
  | some h, some hd, some d, some t, some b, some c, some o =>
    some { html := h, header := hd, drawer := d, menuToggle := t, bars := b, close := c,
           overlay := o }
  | _, _, _, _, _, _, _ => none

/-- A line written to the console. -/
inductive ConsoleMsg where
  | warn (text : String) (keys : List String)
  | error (text : String)
deriving DecidableEq, Repr

/-- The four functions the script ever passes to `addEventListener`. -/
inductive Handler where
  | smoothScroll
  | toggleDrawer
  | keyPress
  | init
deriving DecidableEq, Repr

/-- Where a listener is attached. -/
inductive ListenerTarget where
  | document
  | element (n : Node)
deriving DecidableEq, Repr

/-- One entry of an event listener list.  Every registration of the script
uses the bubbling phase, so the capture flag is left out. -/
structure Listener where
  target : ListenerTarget
  type : String
  handler : Handler
  passive : Bool
  once : Bool
deriving DecidableEq, Repr

/-- An intersection observer together with the sentinel it observes. -/
structure ObserverReg where
  threshold : Nat
  rootMargin : String
  sentinelClass : String
deriving DecidableEq, Repr

/-- Exceptions that can end the script before its last line. -/
inductive ScriptError where
  | referenceError
  | typeError
deriving DecidableEq, Repr

/-- Everything the script has registered with the browser so far, and the
exception that ended it, if one did. -/
structure Host where
  console : List ConsoleMsg
  listeners : List Listener
  observers : List ObserverReg
  sentinels : List String
  initRuns : Nat
  dom : Option Dom
  uncaught : Option ScriptError
deriving DecidableEq, Repr

/-- The browser state before the script has run. -/
def Host.fresh : Host :=
  { console := [], listeners := [], observers := [], sentinels := [], initRuns := 0,
    dom := none, uncaught := none }

/-- Listeners count as the same registration when target, type and callback
agree (the capture flag agrees throughout). -/
def Listener.sameRegistration (a b : Listener) : Bool :=
  decide (a.target = b.target) && decide (a.type = b.type) && decide (a.handler = b.handler)

/-- Browser `addEventListener`: a repeated registration is dropped. -/
def addEventListener (l : Listener) (h : Host) : Host :=
  if h.listeners.any (fun k => k.sameRegistration l) then h
  else { h with listeners := h.listeners ++ [l] }

/-- Lines 3 to 30: the `DOM` constant, with the warning it may log. -/
def DOM (doc : Document) (h : Host) : Host × Option Dom :=
  let elements := lookupElements doc
  if 0 < (missingElements elements).length then
    ({ h with console := h.console ++ [ConsoleMsg.warn "Missing DOM elements:"
        (missingElements elements)] }, none)
  else
    (h, freezeElements elements)

/-- Lines 81 to 96: the observer and its sentinel.  `DOM.header` is a real
element whenever this point is reached, so the test on line 81 succeeds.
Line 82 raises a `ReferenceError` where `IntersectionObserver` is not
defined.  Line 94 raises a `TypeError` where `document.body` is `null`; the
observer and the `div` built by then are attached to nothing and are lost.
Otherwise the sentinel is prepended to the body and observed. -/
def installHeaderObserver (doc : Document) (h : Host) : Host :=
  if doc.hasIntersectionObserver = false then
    { h with uncaught := some ScriptError.referenceError }
  else
    match doc.body with
    | none => { h with uncaught := some ScriptError.typeError }
    | some _ =>
      { h with
        observers := h.observers ++
          [{ threshold := 1, rootMargin := "-10px",
             sentinelClass := "pointer-events-none absolute top-0 h-1 w-full" }]
        sentinels := h.sentinels ++ ["pointer-events-none absolute top-0 h-1 w-full"] }

/-- Lines 137 to 149: `init`.  The test on line 142 succeeds because both
references are real elements.  The counter records that the body ran. -/
def init (dom : Dom) (h : Host) : Host :=
  let h := { h with initRuns := h.initRuns + 1 }
  let h := addEventListener
    { target := .document, type := "click", handler := .smoothScroll, passive := true,
      once := false } h
  let h := addEventListener
    { target := .element dom.menuToggle, type := "click", handler := .toggleDrawer,
      passive := true, once := false } h
  let h := addEventListener
    { target := .element dom.overlay, type := "click", handler := .toggleDrawer,
      passive := true, once := false } h
  addEventListener
    { target := .document, type := "keydown", handler := .keyPress, passive := false,
      once := false } h

/-- The whole script, lines 1 to 157, run once on a host document.  An
exception raised on lines 81 to 96 ends the script there: nothing below
those lines runs. -/
def runScript (doc : Document) : Host :=
  match DOM doc Host.fresh with
  | (h, none) =>
    { h with console := h.console ++
        [ConsoleMsg.error "Required DOM elements not found. Initialization aborted."] }
  | (h, some dom) =>
    let h := { h with dom := some dom }
    let h := installHeaderObserver doc h
    if h.uncaught.isSome then h
    else if doc.readyState = ReadyState.loading then
      addEventListener
        { target := .document, type := "DOMContentLoaded", handler := .init,
          passive := false, once := true } h
    else
      init dom h

/-- What a callback does to the registrations when the browser invokes it:
only `init` registers anything. -/
def Host.invoke (h : Host) (l : Listener) : Host :=
  let h := if l.once then { h with listeners := h.listeners.filter (fun k => k ≠ l) } else h
  match l.handler, h.dom with
  | .init, some dom => init dom h
  | _, _ => h

/-- The browser fires `DOMContentLoaded` at the document. -/
def fireDOMContentLoaded (h : Host) : Host :=
  (h.listeners.filter (fun l =>
      decide (l.target = ListenerTarget.document) && decide (l.type = "DOMContentLoaded"))).foldl
    Host.invoke h

/-- The page once loading has finished: the script ran, and a document that
was still loading has since fired `DOMContentLoaded`. -/
def pageLoaded (doc : Document) : Host :=
  if doc.readyState = ReadyState.loading then fireDOMContentLoaded (runScript doc)
  else runScript doc

/-- The four registrations documented for `init`. -/
def documentedListeners (dom : Dom) : List Listener :=
  [ { target := .document, type := "click", handler := .smoothScroll, passive := true,
      once := false },
    { target := .element dom.menuToggle, type := "click", handler := .toggleDrawer,
      passive := true, once := false },
    { target := .element dom.overlay, type := "click", handler := .toggleDrawer,
      passive := true, once := false },
    { target := .document, type := "keydown", handler := .keyPress, passive := false,
      once := false } ]

/-- A page with all six required elements, in the closed state: the root,
its body, then the header, the toggle with its two icons, the drawer and the
overlay. -/
def samplePage : Document :=
  { nodes :=
      [ { id := none, classes := [] },
        { id := none, classes := [] },
        { id := some "mainHeader", classes := ["fixed"] },
        { id := some "menuToggle", classes := [] },
        { id := none, classes := ["menu-bars"] },
        { id := none, classes := ["menu-x", "hidden"] },
        { id := some "sideDrawer", classes := ["fixed", "translate-x-full"] },
        { id := some "drawerOverlay", classes := ["invisible", "opacity-0"] } ]
    body := some 1
    hasIntersectionObserver := true
    readyState := .complete }

/-- The same page lacking its overlay, still loading. -/
def pageWithoutOverlay : Document :=
  { nodes := samplePage.nodes.take 7, body := some 1, hasIntersectionObserver := true,
    readyState := .loading }

/-- The elements of the sample page in a document whose root has no `body`
child, so that `document.body` is `null`. -/
def pageWithoutBody : Document :=
  { nodes := samplePage.nodes, body := none, hasIntersectionObserver := true,
    readyState := .complete }

/-! ## Run-time state -/

/-- Browser `classList.add` on a token list. -/
def tokenAdd (c : String) (l : List String) : List String :=
  if c ∈ l then l else l ++ [c]

/-- Browser `classList.remove` on a token list. -/
def tokenRemove (c : String) (l : List String) : List String :=
  l.filter (fun x => decide (x ≠ c))

/-- Browser `classList.toggle(c, force)`: add when `force`, else remove. -/
def tokenToggle (c : String) (force : Bool) (l : List String) : List String :=
  if force then tokenAdd c l else tokenRemove c l

/-- The two closures handed to `requestAnimationFrame`: the one of lines 52
to 76 with its captured `isOpen`, and the one of lines 84 to 86 with the
`isIntersecting` of its captured entry. -/
inductive FrameCallback where
  | drawer (isOpen : Bool)
  | header (isIntersecting : Bool)
deriving DecidableEq, Repr

/-- The two closures handed to `setTimeout`: lines 61 to 63 (delay 10) and
lines 67 to 69 (delay 300). -/
inductive TimerCallback where
  | removeOpacity
  | addInvisible
deriving DecidableEq, Repr

/-- A pending timeout with the clock value at which it becomes due. -/
structure Timer where
  due : Nat
  callback : TimerCallback
deriving DecidableEq, Repr

/-- Mutable state reachable from the script once it is wired: the flag
`state.isDrawerOpen`, the class list of every element, the property
`animate.drawer.frameId`, and the pending work held by the browser
(animation frame callbacks in request order, timeouts in firing order) with
its clock in milliseconds. -/
structure World where
  isDrawerOpen : Bool
  classes : Node → List String
  frameId : Option Nat
  nextHandle : Nat
  frames : List (Nat × FrameCallback)
  timers : List Timer
  now : Nat

/-- The state right after the script has run on `doc`: line 40 sets the
flag to false, the class lists are those of the markup, nothing is pending. -/
def World.initial (doc : Document) : World :=
  { isDrawerOpen := false
    classes := fun n =>
      match doc.nodes[n]? with
      | some e => e.classes
      | none => []
    frameId := none
    nextHandle := 1
    frames := []
    timers := []
    now := 0 }

/-- Apply a `classList` operation to element `n`. -/
def World.classList (w : World) (n : Node) (f : List String → List String) : World :=
  { w with classes := fun m => if m = n then f (w.classes m) else w.classes m }

/-- Membership test `n.classList.contains(c)`. -/
def World.hasClass (w : World) (n : Node) (c : String) : Bool :=
  decide (c ∈ w.classes n)

/-- Browser `requestAnimationFrame`: queue the callback under a fresh handle
and return that handle. -/
def requestAnimationFrame (cb : FrameCallback) (w : World) : Nat × World :=
  (w.nextHandle,
    { w with nextHandle := w.nextHandle + 1, frames := w.frames ++ [(w.nextHandle, cb)] })

/-- Browser `cancelAnimationFrame`: drop the callback queued under the
handle; `undefined` or a handle that already ran cancels nothing. -/
def cancelAnimationFrame (id : Option Nat) (w : World) : World :=
  match id with
  | none => w
  | some i => { w with frames := w.frames.filter (fun f => decide (f.1 ≠ i)) }

/-- Timeouts fire in order of due time, and in request order among equals. -/
def insertTimer (t : Timer) : List Timer → List Timer
  | [] => [t]
  | x :: xs => if x.due ≤ t.due then x :: insertTimer t xs else t :: x :: xs

/-- Browser `setTimeout(cb, delay)`; the script never keeps the handle. -/
def setTimeout (cb : TimerCallback) (delay : Nat) (w : World) : World :=
  { w with timers := insertTimer { due := w.now + delay, callback := cb } w.timers }

/-! ## Animation driver (lines 47 to 78) -/

/-- Lines 48 to 77: `animate.drawer(isOpen)`.  The guard of line 49 never
returns early because `DOM.drawer` and `DOM.overlay` are real elements. -/
def animateDrawer (isOpen : Bool) (w : World) : World :=
  let w := cancelAnimationFrame w.frameId w
  let r := requestAnimationFrame (FrameCallback.drawer isOpen) w
  { r.2 with frameId := some r.1 }

/-- Lines 53 to 75: the body of the frame callback of `animate.drawer`. -/
def drawerFrame (dom : Dom) (isOpen : Bool) (w : World) : World :=
  let w := w.classList dom.drawer (tokenToggle "translate-x-full" (!isOpen))
  let w := w.classList dom.drawer (tokenToggle "translate-x-0" isOpen)
  let w :=
    if isOpen then
      setTimeout TimerCallback.removeOpacity 10 (w.classList dom.overlay (tokenRemove "invisible"))
    else
      setTimeout TimerCallback.addInvisible 300 (w.classList dom.overlay (tokenAdd "opacity-0"))
  let w := w.classList dom.bars (tokenToggle "hidden" isOpen)
  let w := w.classList dom.close (tokenToggle "hidden" (!isOpen))
  w.classList dom.html (tokenToggle "overflow-hidden" isOpen)

/-- Lines 62 and 68: the bodies of the two timeout callbacks. -/
def runTimer (dom : Dom) (cb : TimerCallback) (w : World) : World :=
  match cb with
  | .removeOpacity => w.classList dom.overlay (tokenRemove "opacity-0")
  | .addInvisible => w.classList dom.overlay (tokenAdd "invisible")

/-! ## Header watcher (lines 80 to 96) -/

/-- Line 85: the body of the frame callback of the observer. -/
def headerFrame (dom : Dom) (isIntersecting : Bool) (w : World) : World :=
  w.classList dom.header (tokenToggle "shadow-md" (!isIntersecting))

/-- Lines 83 to 87: the observer callback.  The browser passes a non-empty
array of entries; the parameter pattern `[entry]` keeps the first. -/
def observerCallback (entry : Bool) (_more : List Bool) (w : World) : World :=
  (requestAnimationFrame (FrameCallback.header entry) w).2

/-! ## Browser event loop -/

/-- Run one queued animation frame callback. -/
def runFrameCallback (dom : Dom) (cb : FrameCallback) (w : World) : World :=
  match cb with
  | .drawer isOpen => drawerFrame dom isOpen w
  | .header isIntersecting => headerFrame dom isIntersecting w

/-- One animation frame: the browser empties the callback list and runs the
callbacks it held, in request order. -/
def runFrames (dom : Dom) (w : World) : World :=
  w.frames.foldl (fun u f => runFrameCallback dom f.2 u) { w with frames := [] }

/-- The clock moves on by `dt` milliseconds and every timeout that has become
due fires, earliest first. -/
def advance (dom : Dom) (dt : Nat) (w : World) : World :=
  (w.timers.filter (fun t => decide (t.due ≤ w.now + dt))).foldl
    (fun u t => runTimer dom t.callback u)
    { w with now := w.now + dt
             timers := w.timers.filter (fun t => !decide (t.due ≤ w.now + dt)) }

/-! ## Event handlers (lines 98 to 134) -/

/-- Lines 100 to 103: `handlers.toggleDrawer`. -/
def toggleDrawer (w : World) : World :=
  let w := { w with isDrawerOpen := !w.isDrawerOpen }
  animateDrawer w.isDrawerOpen w

/-- Lines 105 to 109: `handlers.keyPress`, given `e.key`. -/
def keyPress (key : String) (w : World) : World :=
  if key = "Escape" ∧ w.isDrawerOpen = true then toggleDrawer w else w

/-- Exceptions a DOM call can raise. -/
inductive DOMException where
  | syntaxError
deriving DecidableEq, Repr

/-- What the handler reads from an element found by `querySelector`:
`getBoundingClientRect().top`. -/
structure ScrollTarget (ν : Type) where
  rectTop : ν

/-- Layout and document queries available to the click handler.
`querySelector` raises a `SyntaxError` on a string that is not a selector. -/
structure Viewport (ν : Type) where
  querySelector : String → Except DOMException (Option (ScrollTarget ν))
  pageYOffset : ν
  headerOffsetHeight : ν

/-- A click event: for `e.target` and then each of its ancestors, the `href`
attribute when that element is an `a` carrying one. -/
structure Click where
  ancestry : List (Option String)

/-- Attribute selector `[href^="#"]`. -/
def startsWithHash (href : String) : Bool :=
  match href.toList with
  | '#' :: _ => true
  | _ => false

/-- The `href` of `e.target.closest('a[href^="#"]')`, read on line 115. -/
def Click.closestHashLink (e : Click) : Option String :=
  e.ancestry.findSome? (fun a =>
    match a with
    | some href => if startsWithHash href then some href else none
    | none => none)

/-- Argument of `window.scrollTo`. -/
structure ScrollRequest (ν : Type) where
  top : ν
  behavior : String

/-- Observable outcome of one handler call that returned. -/
structure HandlerResult (ν : Type) where
  world : World
  preventDefaultCalled : Bool
  scrolls : List (ScrollRequest ν)

/-- Lines 111 to 133: `handlers.smoothScroll`.  `DOM.header` is a real
element, so line 122 reads its `offsetHeight`. -/
def smoothScroll {ν : Type} [Add ν] [Sub ν] (view : Viewport ν) (e : Click) (w : World) :
    Except DOMException (HandlerResult ν) :=
  match e.closestHashLink with
  | none => .ok { world := w, preventDefaultCalled := false, scrolls := [] }
  | some targetId =>
    if targetId = "#" then .ok { world := w, preventDefaultCalled := false, scrolls := [] }
    else
      match view.querySelector targetId with
      | .error ex => .error ex
      | .ok none => .ok { world := w, preventDefaultCalled := false, scrolls := [] }
      | .ok (some target) =>
        let headerOffset := view.headerOffsetHeight
        let top := target.rectTop + view.pageYOffset - headerOffset
        .ok { world := if w.isDrawerOpen then toggleDrawer w else w
              preventDefaultCalled := true
              scrolls := [{ top := top, behavior := "smooth" }] }

/-- Browser dispatch of a cancelable event to one listener: a call of
`preventDefault` made inside a passive listener is ignored. -/
def defaultPrevented {ν : Type} (l : Listener) (r : HandlerResult ν) : Bool :=
  r.preventDefaultCalled && !l.passive

/-- Everything that can happen to the wired page. -/
inductive Event where
  | toggle
  | key (k : String)
  | linkClick (view : Viewport Int) (e : Click)
  | observe (entry : Bool) (more : List Bool)
  | frame
  | advance (dt : Nat)

/-- One turn of the event loop.  An exception thrown by a handler is
reported by the browser and leaves the state as the handler left it. -/
def step (dom : Dom) (w : World) : Event → World
  | .toggle => toggleDrawer w
  | .key k => keyPress k w
  | .linkClick view e =>
    match smoothScroll view e w with
    | .ok r => r.world
    | .error _ => w
  | .observe entry more => observerCallback entry more w
  | .frame => runFrames dom w
  | .advance dt => advance dom dt w

/-- Run a sequence of events. -/
def run (dom : Dom) (w : World) (es : List Event) : World :=
  es.foldl (step dom) w

/-- Nothing is pending: no animation frame callback and no timeout. -/
def World.idle (w : World) : Bool :=
  w.frames.isEmpty && w.timers.isEmpty

/-! ## Bookkeeping of animation frame handles -/

/-- Is this the callback of `animate.drawer`. -/
def FrameCallback.isDrawer : FrameCallback → Bool
  | .drawer _ => true
  | .header _ => false

/-- What the browser and the script maintain about handles: handles are
fresh (every queued handle and the stored `frameId` lie below the next
one), and a queued callback is a drawer callback exactly when it is the one
whose handle `animate.drawer.frameId` holds. -/
def World.wellFormed (w : World) : Bool :=
  w.frames.all (fun f =>
    decide (f.1 < w.nextHandle) && (f.2.isDrawer == decide (w.frameId = some f.1))) &&
  (match w.frameId with
   | some i => decide (i < w.nextHandle)
   | none => true)

/-- Calls `animate.drawer(b1)`, ..., `animate.drawer(bn)` in a row. -/
def animateDrawerCalls (bs : List Bool) (w : World) : World :=
  bs.foldl (fun u b => animateDrawer b u) w

/-! ## The flag and what the page shows -/

/-- The class sets show the drawer as open (`b` true) or as closed (`b`
false): the drawer slid in or out, the overlay visible and opaque or
invisible and transparent, the close icon or the bars icon shown, the page
scroll locked or free. -/
def World.showsDrawer (w : World) (dom : Dom) (b : Bool) : Bool :=
  (w.hasClass dom.drawer "translate-x-0" == b) &&
  (w.hasClass dom.drawer "translate-x-full" == !b) &&
  (w.hasClass dom.overlay "invisible" == !b) &&
  (w.hasClass dom.overlay "opacity-0" == !b) &&
  (w.hasClass dom.bars "hidden" == b) &&
  (w.hasClass dom.close "hidden" == !b) &&
  (w.hasClass dom.html "overflow-hidden" == b)

/-- The pairs of element and token that the drawer callback and its
timeouts write. -/
def managed (dom : Dom) (n : Node) (c : String) : Bool :=
  (decide (n = dom.drawer) && decide (c = "translate-x-full")) ||
  (decide (n = dom.drawer) && decide (c = "translate-x-0")) ||
  (decide (n = dom.overlay) && decide (c = "invisible")) ||
  (decide (n = dom.overlay) && decide (c = "opacity-0")) ||
  (decide (n = dom.bars) && decide (c = "hidden")) ||
  (decide (n = dom.close) && decide (c = "hidden")) ||
  (decide (n = dom.html) && decide (c = "overflow-hidden"))

/-- Events of a toggling session: calls of `toggleDrawer`, animation frames
and the passing of time. -/
def Event.isToggleFrameOrTime : Event → Bool
  | .toggle => true
  | .frame => true
  | .advance _ => true
  | _ => false

/-- Number of `toggleDrawer` calls in a sequence of events. -/
def countToggles : List Event → Nat
  | [] => 0
  | .toggle :: es => countToggles es + 1
  | _ :: es => countToggles es

/-- An animation frame that is about to run a drawer callback finds no
timeout of an earlier drawer callback still pending. -/
def settledAt (w : World) : Event → Bool
  | .frame => !(w.frames.any (fun f => f.2.isDrawer)) || w.timers.isEmpty
  | _ => true

/-- Every animation frame of the run satisfies `settledAt`. -/
def settled (dom : Dom) : World → List Event → Bool
  | _, [] => true
  | w, e :: es => settledAt w e && settled dom (step dom w e) es

/-- Invariant of a toggling session that started in `w0`.  The page shows
the drawer state `v` of the last drawer callback that ran; the overlay has
either completed its transition to `v` or waits for the one timeout that
completes it; the queue is empty with `v` equal to the flag, or holds the one
drawer callback for the flag under the stored handle; every class the script
does not manage is as in `w0`. -/
structure Tracking (dom : Dom) (w0 w : World) (v : Bool) : Prop where
  drawerFull : "translate-x-full" ∈ w.classes dom.drawer ↔ v = false
  drawerZero : "translate-x-0" ∈ w.classes dom.drawer ↔ v = true
  bars : "hidden" ∈ w.classes dom.bars ↔ v = true
  close : "hidden" ∈ w.classes dom.close ↔ v = false
  html : "overflow-hidden" ∈ w.classes dom.html ↔ v = true
  overlay :
    (w.timers = [] ∧ ("invisible" ∈ w.classes dom.overlay ↔ v = false) ∧
      ("opacity-0" ∈ w.classes dom.overlay ↔ v = false)) ∨
    (v = true ∧ "invisible" ∉ w.classes dom.overlay ∧
      ∃ d, w.timers = [{ due := d, callback := TimerCallback.removeOpacity }]) ∨
    (v = false ∧ "opacity-0" ∈ w.classes dom.overlay ∧
      ∃ d, w.timers = [{ due := d, callback := TimerCallback.addInvisible }])
  queue :
    (w.frames = [] ∧ v = w.isDrawerOpen) ∨
    (∃ i, w.frames = [(i, FrameCallback.drawer w.isDrawerOpen)] ∧ w.frameId = some i)
  others : ∀ n c, managed dom n c = false → (c ∈ w.classes n ↔ c ∈ w0.classes n)

/-! ## Sample inputs -/

/-- Selector grammar, as far as the samples need it: the name of an id
selector is an identifier, and an identifier does not begin with a digit. -/
def idSelectorStartsWithDigit (sel : String) : Bool :=
  match sel.toList with
  | '#' :: c :: _ => c.isDigit
  | _ => false

/-- Layout of the sample page: a section `about` whose box starts 640 px
below the top of the viewport, the page scrolled by 120 px, a header 64 px
tall.  A string such as `#123` is rejected as a selector. -/
def sampleViewport : Viewport Int :=
  { querySelector := fun sel =>
      if idSelectorStartsWithDigit sel then .error DOMException.syntaxError
      else if sel = "#about" then .ok (some { rectTop := 640 })
      else .ok none
    pageYOffset := 120
    headerOffsetHeight := 64 }

/-- A click on a `span` inside `<a href="#about">` inside a `nav`. -/
def clickInsideAboutLink : Click :=
  { ancestry := [none, some "#about", none] }

/-- A click on `<a href="#123">`. -/
def clickOnNumericLink : Click :=
  { ancestry := [some "#123", none] }

/-- The frozen `DOM` of the sample page. -/
def sampleDom : Dom :=
  { html := 0, header := 2, drawer := 6, menuToggle := 3, bars := 4, close := 5, overlay := 7 }

/-- The sample page with an overlay that the markup hides by `invisible`
alone. -/
def pageWithPlainOverlay : Document :=
  { nodes := samplePage.nodes.take 7 ++ [{ id := some "drawerOverlay", classes := ["invisible"] }]
    body := some 1
    hasIntersectionObserver := true
    readyState := .complete }

/-- Open, then close, each time letting the frame and its timeout run. -/
def openThenClose : List Event :=
  [.toggle, .advance 16, .frame, .advance 10, .toggle, .advance 16, .frame, .advance 300]

/-- Open, close, and open again 116 ms after the closing frame. -/
def openCloseReopen : List Event :=
  [.toggle, .advance 16, .frame, .advance 300,
   .toggle, .advance 16, .frame, .advance 100,
   .toggle, .advance 16, .frame, .advance 400]

/-! ## Lemmas -/

theorem mem_missingElements (e : Elements) (k : String) :
    k ∈ missingElements e ↔ (k, true) ∈ entryVerdicts e := by
  unfold missingElements
  simp only [List.mem_map, List.mem_filter]
  constructor
  · rintro ⟨⟨k1, b⟩, ⟨hm, hb⟩, rfl⟩
    simp only at hb
    subst hb
    exact hm
  · intro hm
    exact ⟨(k, true), ⟨hm, rfl⟩, rfl⟩

theorem missing_pos_of_mem {e : Elements} {k : String} (h : k ∈ missingElements e) :
    0 < (missingElements e).length :=
  List.length_pos_of_mem h

theorem runScript_of_missing (doc : Document)
    (h : 0 < (missingElements (lookupElements doc)).length) :
    runScript doc =
      { Host.fresh with
        console :=
          [ConsoleMsg.warn "Missing DOM elements:" (missingElements (lookupElements doc)),
           ConsoleMsg.error "Required DOM elements not found. Initialization aborted."] } := by
  simp [runScript, DOM, h, Host.fresh]

@[simp] theorem cancelAnimationFrame_isDrawerOpen (id : Option Nat) (w : World) :
    (cancelAnimationFrame id w).isDrawerOpen = w.isDrawerOpen := by
  cases id <;> rfl

@[simp] theorem cancelAnimationFrame_classes (id : Option Nat) (w : World) :
    (cancelAnimationFrame id w).classes = w.classes := by
  cases id <;> rfl

@[simp] theorem cancelAnimationFrame_timers (id : Option Nat) (w : World) :
    (cancelAnimationFrame id w).timers = w.timers := by
  cases id <;> rfl

@[simp] theorem cancelAnimationFrame_nextHandle (id : Option Nat) (w : World) :
    (cancelAnimationFrame id w).nextHandle = w.nextHandle := by
  cases id <;> rfl

@[simp] theorem cancelAnimationFrame_frameId (id : Option Nat) (w : World) :
    (cancelAnimationFrame id w).frameId = w.frameId := by
  cases id <;> rfl

@[simp] theorem cancelAnimationFrame_now (id : Option Nat) (w : World) :
    (cancelAnimationFrame id w).now = w.now := by
  cases id <;> rfl

@[simp] theorem animateDrawer_isDrawerOpen (b : Bool) (w : World) :
    (animateDrawer b w).isDrawerOpen = w.isDrawerOpen := by
  simp [animateDrawer, requestAnimationFrame]

@[simp] theorem animateDrawer_classes (b : Bool) (w : World) :
    (animateDrawer b w).classes = w.classes := by
  simp [animateDrawer, requestAnimationFrame]

@[simp] theorem animateDrawer_timers (b : Bool) (w : World) :
    (animateDrawer b w).timers = w.timers := by
  simp [animateDrawer, requestAnimationFrame]

@[simp] theorem animateDrawer_now (b : Bool) (w : World) :
    (animateDrawer b w).now = w.now := by
  simp [animateDrawer, requestAnimationFrame]

@[simp] theorem animateDrawer_nextHandle (b : Bool) (w : World) :
    (animateDrawer b w).nextHandle = w.nextHandle + 1 := by
  simp [animateDrawer, requestAnimationFrame]

@[simp] theorem animateDrawer_frameId (b : Bool) (w : World) :
    (animateDrawer b w).frameId = some w.nextHandle := by
  simp [animateDrawer, requestAnimationFrame]

theorem animateDrawer_frames (b : Bool) (w : World) :
    (animateDrawer b w).frames =
      (cancelAnimationFrame w.frameId w).frames ++ [(w.nextHandle, FrameCallback.drawer b)] := by
  simp [animateDrawer, requestAnimationFrame]

theorem mem_tokenAdd (x c : String) (l : List String) :
    x ∈ tokenAdd c l ↔ x = c ∨ x ∈ l := by
  unfold tokenAdd
  by_cases h : c ∈ l
  · simp only [h, if_true]
    constructor
    · intro hx; exact Or.inr hx
    · rintro (rfl | hx)
      · exact h
      · exact hx
  · simp only [h, if_false, List.mem_append, List.mem_singleton]
    exact Or.comm

theorem mem_tokenRemove (x c : String) (l : List String) :
    x ∈ tokenRemove c l ↔ x ∈ l ∧ x ≠ c := by
  simp [tokenRemove]

theorem mem_tokenToggle (x c : String) (b : Bool) (l : List String) :
    x ∈ tokenToggle c b l ↔ (b = true ∧ (x = c ∨ x ∈ l)) ∨ (b = false ∧ x ∈ l ∧ x ≠ c) := by
  cases b <;> simp [tokenToggle, mem_tokenAdd, mem_tokenRemove]

@[simp] theorem classList_isDrawerOpen (w : World) (n : Node) (f : List String → List String) :
    (w.classList n f).isDrawerOpen = w.isDrawerOpen := rfl

@[simp] theorem classList_frames (w : World) (n : Node) (f : List String → List String) :
    (w.classList n f).frames = w.frames := rfl

@[simp] theorem classList_timers (w : World) (n : Node) (f : List String → List String) :
    (w.classList n f).timers = w.timers := rfl

@[simp] theorem classList_frameId (w : World) (n : Node) (f : List String → List String) :
    (w.classList n f).frameId = w.frameId := rfl

@[simp] theorem classList_nextHandle (w : World) (n : Node) (f : List String → List String) :
    (w.classList n f).nextHandle = w.nextHandle := rfl

@[simp] theorem classList_now (w : World) (n : Node) (f : List String → List String) :
    (w.classList n f).now = w.now := rfl

theorem classList_classes (w : World) (n m : Node) (f : List String → List String) :
    (w.classList n f).classes m = if m = n then f (w.classes m) else w.classes m := rfl

@[simp] theorem setTimeout_isDrawerOpen (cb : TimerCallback) (d : Nat) (w : World) :
    (setTimeout cb d w).isDrawerOpen = w.isDrawerOpen := rfl

@[simp] theorem setTimeout_frames (cb : TimerCallback) (d : Nat) (w : World) :
    (setTimeout cb d w).frames = w.frames := rfl

@[simp] theorem setTimeout_classes (cb : TimerCallback) (d : Nat) (w : World) :
    (setTimeout cb d w).classes = w.classes := rfl

@[simp] theorem setTimeout_frameId (cb : TimerCallback) (d : Nat) (w : World) :
    (setTimeout cb d w).frameId = w.frameId := rfl

@[simp] theorem setTimeout_nextHandle (cb : TimerCallback) (d : Nat) (w : World) :
    (setTimeout cb d w).nextHandle = w.nextHandle := rfl

@[simp] theorem setTimeout_now (cb : TimerCallback) (d : Nat) (w : World) :
    (setTimeout cb d w).now = w.now := rfl

theorem setTimeout_timers (cb : TimerCallback) (d : Nat) (w : World) :
    (setTimeout cb d w).timers = insertTimer { due := w.now + d, callback := cb } w.timers := rfl

@[simp] theorem headerFrame_isDrawerOpen (dom : Dom) (b : Bool) (w : World) :
    (headerFrame dom b w).isDrawerOpen = w.isDrawerOpen := rfl

@[simp] theorem headerFrame_frames (dom : Dom) (b : Bool) (w : World) :
    (headerFrame dom b w).frames = w.frames := rfl

@[simp] theorem headerFrame_timers (dom : Dom) (b : Bool) (w : World) :
    (headerFrame dom b w).timers = w.timers := rfl

@[simp] theorem headerFrame_frameId (dom : Dom) (b : Bool) (w : World) :
    (headerFrame dom b w).frameId = w.frameId := rfl

@[simp] theorem headerFrame_nextHandle (dom : Dom) (b : Bool) (w : World) :
    (headerFrame dom b w).nextHandle = w.nextHandle := rfl

@[simp] theorem headerFrame_now (dom : Dom) (b : Bool) (w : World) :
    (headerFrame dom b w).now = w.now := rfl

@[simp] theorem drawerFrame_isDrawerOpen (dom : Dom) (b : Bool) (w : World) :
    (drawerFrame dom b w).isDrawerOpen = w.isDrawerOpen := by
  cases b <;> rfl

@[simp] theorem drawerFrame_frames (dom : Dom) (b : Bool) (w : World) :
    (drawerFrame dom b w).frames = w.frames := by
  cases b <;> rfl

@[simp] theorem drawerFrame_frameId (dom : Dom) (b : Bool) (w : World) :
    (drawerFrame dom b w).frameId = w.frameId := by
  cases b <;> rfl

@[simp] theorem drawerFrame_nextHandle (dom : Dom) (b : Bool) (w : World) :
    (drawerFrame dom b w).nextHandle = w.nextHandle := by
  cases b <;> rfl

@[simp] theorem drawerFrame_now (dom : Dom) (b : Bool) (w : World) :
    (drawerFrame dom b w).now = w.now := by
  cases b <;> rfl

theorem drawerFrame_timers (dom : Dom) (b : Bool) (w : World) :
    (drawerFrame dom b w).timers =
      insertTimer
        (if b then { due := w.now + 10, callback := TimerCallback.removeOpacity }
         else { due := w.now + 300, callback := TimerCallback.addInvisible }) w.timers := by
  cases b <;> rfl

@[simp] theorem runFrameCallback_isDrawerOpen (dom : Dom) (cb : FrameCallback) (w : World) :
    (runFrameCallback dom cb w).isDrawerOpen = w.isDrawerOpen := by
  cases cb <;> simp [runFrameCallback]

@[simp] theorem runFrameCallback_frames (dom : Dom) (cb : FrameCallback) (w : World) :
    (runFrameCallback dom cb w).frames = w.frames := by
  cases cb <;> simp [runFrameCallback]

@[simp] theorem runFrameCallback_frameId (dom : Dom) (cb : FrameCallback) (w : World) :
    (runFrameCallback dom cb w).frameId = w.frameId := by
  cases cb <;> simp [runFrameCallback]

@[simp] theorem runFrameCallback_nextHandle (dom : Dom) (cb : FrameCallback) (w : World) :
    (runFrameCallback dom cb w).nextHandle = w.nextHandle := by
  cases cb <;> simp [runFrameCallback]

@[simp] theorem runFrameCallback_now (dom : Dom) (cb : FrameCallback) (w : World) :
    (runFrameCallback dom cb w).now = w.now := by
  cases cb <;> simp [runFrameCallback]

theorem foldFrames_fields (dom : Dom) (fs : List (Nat × FrameCallback)) (u : World) :
    (fs.foldl (fun u f => runFrameCallback dom f.2 u) u).isDrawerOpen = u.isDrawerOpen ∧
    (fs.foldl (fun u f => runFrameCallback dom f.2 u) u).frames = u.frames ∧
    (fs.foldl (fun u f => runFrameCallback dom f.2 u) u).frameId = u.frameId ∧
    (fs.foldl (fun u f => runFrameCallback dom f.2 u) u).nextHandle = u.nextHandle ∧
    (fs.foldl (fun u f => runFrameCallback dom f.2 u) u).now = u.now := by
  induction fs generalizing u with
  | nil => simp
  | cons f fs ih =>
    simp only [List.foldl_cons]
    obtain ⟨h1, h2, h3, h4, h5⟩ := ih (runFrameCallback dom f.2 u)
    simp [h1, h2, h3, h4, h5]

@[simp] theorem runFrames_isDrawerOpen (dom : Dom) (w : World) :
    (runFrames dom w).isDrawerOpen = w.isDrawerOpen :=
  (foldFrames_fields dom w.frames _).1

@[simp] theorem runFrames_frames (dom : Dom) (w : World) : (runFrames dom w).frames = [] :=
  (foldFrames_fields dom w.frames _).2.1

@[simp] theorem runFrames_frameId (dom : Dom) (w : World) :
    (runFrames dom w).frameId = w.frameId :=
  (foldFrames_fields dom w.frames _).2.2.1

@[simp] theorem runFrames_nextHandle (dom : Dom) (w : World) :
    (runFrames dom w).nextHandle = w.nextHandle :=
  (foldFrames_fields dom w.frames _).2.2.2.1

@[simp] theorem runFrames_now (dom : Dom) (w : World) : (runFrames dom w).now = w.now :=
  (foldFrames_fields dom w.frames _).2.2.2.2

theorem mem_classList_toggle_ne (w : World) (n m : Node) (t c : String) (b : Bool)
    (h : c ≠ t) :
    c ∈ (w.classList n (tokenToggle t b)).classes m ↔ c ∈ w.classes m := by
  rw [classList_classes]
  by_cases hm : m = n
  · cases b <;> simp [hm, mem_tokenToggle, h]
  · simp [hm]

theorem mem_classList_toggle_self (w : World) (n m : Node) (t : String) (b : Bool) :
    t ∈ (w.classList n (tokenToggle t b)).classes m ↔
      (m = n ∧ b = true) ∨ (m ≠ n ∧ t ∈ w.classes m) := by
  rw [classList_classes]
  by_cases hm : m = n
  · cases b <;> simp [hm, mem_tokenToggle]
  · simp [hm]

theorem mem_classList_add_ne (w : World) (n m : Node) (t c : String) (h : c ≠ t) :
    c ∈ (w.classList n (tokenAdd t)).classes m ↔ c ∈ w.classes m := by
  rw [classList_classes]
  by_cases hm : m = n
  · simp [hm, mem_tokenAdd, h]
  · simp [hm]

theorem mem_classList_add_self (w : World) (n m : Node) (t : String) :
    t ∈ (w.classList n (tokenAdd t)).classes m ↔ m = n ∨ t ∈ w.classes m := by
  rw [classList_classes]
  by_cases hm : m = n
  · simp [hm, mem_tokenAdd]
  · simp [hm]

theorem mem_classList_remove_ne (w : World) (n m : Node) (t c : String) (h : c ≠ t) :
    c ∈ (w.classList n (tokenRemove t)).classes m ↔ c ∈ w.classes m := by
  rw [classList_classes]
  by_cases hm : m = n
  · simp [hm, mem_tokenRemove, h]
  · simp [hm]

theorem mem_classList_remove_self (w : World) (n m : Node) (t : String) :
    t ∈ (w.classList n (tokenRemove t)).classes m ↔ m ≠ n ∧ t ∈ w.classes m := by
  rw [classList_classes]
  by_cases hm : m = n
  · simp [hm, mem_tokenRemove]
  · simp [hm]

/-- Effect of the drawer callback on every token of every element. -/
theorem mem_drawerFrame (dom : Dom) (b : Bool) (w : World) (n : Node) (c : String) :
    c ∈ (drawerFrame dom b w).classes n ↔
      if c = "translate-x-full" then (if n = dom.drawer then b = false else c ∈ w.classes n)
      else if c = "translate-x-0" then (if n = dom.drawer then b = true else c ∈ w.classes n)
      else if c = "invisible" then
        (if n = dom.overlay ∧ b = true then False else c ∈ w.classes n)
      else if c = "opacity-0" then
        (if n = dom.overlay ∧ b = false then True else c ∈ w.classes n)
      else if c = "hidden" then
        (if n = dom.close then b = false else if n = dom.bars then b = true
         else c ∈ w.classes n)
      else if c = "overflow-hidden" then (if n = dom.html then b = true else c ∈ w.classes n)
      else c ∈ w.classes n := by
  by_cases h1 : c = "translate-x-full"
  · subst h1
    cases b <;> by_cases hn : n = dom.drawer <;>
      simp [drawerFrame, mem_classList_toggle_ne, mem_classList_toggle_self,
        mem_classList_add_ne, mem_classList_remove_ne, setTimeout_classes, hn]
  by_cases h2 : c = "translate-x-0"
  · subst h2
    cases b <;> by_cases hn : n = dom.drawer <;>
      simp [drawerFrame, mem_classList_toggle_ne, mem_classList_toggle_self,
        mem_classList_add_ne, mem_classList_remove_ne, setTimeout_classes, hn]
  by_cases h3 : c = "invisible"
  · subst h3
    cases b <;> by_cases hn : n = dom.overlay <;>
      simp [drawerFrame, mem_classList_toggle_ne, mem_classList_toggle_self,
        mem_classList_add_ne, mem_classList_remove_ne, mem_classList_remove_self,
        setTimeout_classes, hn]
  by_cases h4 : c = "opacity-0"
  · subst h4
    cases b <;> by_cases hn : n = dom.overlay <;>
      simp [drawerFrame, mem_classList_toggle_ne, mem_classList_toggle_self,
        mem_classList_add_ne, mem_classList_remove_ne, mem_classList_add_self,
        setTimeout_classes, hn]
  by_cases h5 : c = "hidden"
  · subst h5
    cases b <;> by_cases hn : n = dom.close <;> by_cases hn2 : n = dom.bars <;>
      simp [drawerFrame, mem_classList_toggle_ne, mem_classList_toggle_self,
        mem_classList_add_ne, mem_classList_remove_ne, setTimeout_classes, hn, hn2]
  by_cases h6 : c = "overflow-hidden"
  · subst h6
    cases b <;> by_cases hn : n = dom.html <;>
      simp [drawerFrame, mem_classList_toggle_ne, mem_classList_toggle_self,
        mem_classList_add_ne, mem_classList_remove_ne, setTimeout_classes, hn]
  simp only [h1, h2, h3, h4, h5, h6, if_false]
  cases b <;>
    simp [drawerFrame, mem_classList_toggle_ne, mem_classList_add_ne,
      mem_classList_remove_ne, setTimeout_classes, h1, h2, h3, h4, h5, h6]

/-- Effect of a timeout callback on every token of every element. -/
theorem mem_runTimer (dom : Dom) (cb : TimerCallback) (w : World) (n : Node) (c : String) :
    c ∈ (runTimer dom cb w).classes n ↔
      match cb with
      | .removeOpacity => ¬ (n = dom.overlay ∧ c = "opacity-0") ∧ c ∈ w.classes n
      | .addInvisible => (n = dom.overlay ∧ c = "invisible") ∨ c ∈ w.classes n := by
  cases cb with
  | removeOpacity =>
    simp only [runTimer]
    by_cases hc : c = "opacity-0"
    · subst hc
      rw [mem_classList_remove_self]
      by_cases hn : n = dom.overlay <;> simp [hn]
    · rw [mem_classList_remove_ne _ _ _ _ _ hc]
      simp [hc]
  | addInvisible =>
    simp only [runTimer]
    by_cases hc : c = "invisible"
    · subst hc
      rw [mem_classList_add_self]
      by_cases hn : n = dom.overlay <;> simp [hn]
    · rw [mem_classList_add_ne _ _ _ _ _ hc]
      simp [hc]

@[simp] theorem runTimer_isDrawerOpen (dom : Dom) (cb : TimerCallback) (w : World) :
    (runTimer dom cb w).isDrawerOpen = w.isDrawerOpen := by
  cases cb <;> rfl

@[simp] theorem runTimer_frames (dom : Dom) (cb : TimerCallback) (w : World) :
    (runTimer dom cb w).frames = w.frames := by
  cases cb <;> rfl

@[simp] theorem runTimer_timers (dom : Dom) (cb : TimerCallback) (w : World) :
    (runTimer dom cb w).timers = w.timers := by
  cases cb <;> rfl

@[simp] theorem runTimer_frameId (dom : Dom) (cb : TimerCallback) (w : World) :
    (runTimer dom cb w).frameId = w.frameId := by
  cases cb <;> rfl

@[simp] theorem runTimer_nextHandle (dom : Dom) (cb : TimerCallback) (w : World) :
    (runTimer dom cb w).nextHandle = w.nextHandle := by
  cases cb <;> rfl

theorem foldTimers_fields (dom : Dom) (ts : List Timer) (u : World) :
    (ts.foldl (fun u t => runTimer dom t.callback u) u).isDrawerOpen = u.isDrawerOpen ∧
    (ts.foldl (fun u t => runTimer dom t.callback u) u).frames = u.frames ∧
    (ts.foldl (fun u t => runTimer dom t.callback u) u).frameId = u.frameId ∧
    (ts.foldl (fun u t => runTimer dom t.callback u) u).nextHandle = u.nextHandle ∧
    (ts.foldl (fun u t => runTimer dom t.callback u) u).timers = u.timers := by
  induction ts generalizing u with
  | nil => simp
  | cons t ts ih =>
    simp only [List.foldl_cons]
    obtain ⟨h1, h2, h3, h4, h5⟩ := ih (runTimer dom t.callback u)
    simp [h1, h2, h3, h4, h5]

@[simp] theorem advance_isDrawerOpen (dom : Dom) (dt : Nat) (w : World) :
    (advance dom dt w).isDrawerOpen = w.isDrawerOpen :=
  (foldTimers_fields dom _ _).1

@[simp] theorem advance_frames (dom : Dom) (dt : Nat) (w : World) :
    (advance dom dt w).frames = w.frames :=
  (foldTimers_fields dom _ _).2.1

@[simp] theorem advance_frameId (dom : Dom) (dt : Nat) (w : World) :
    (advance dom dt w).frameId = w.frameId :=
  (foldTimers_fields dom _ _).2.2.1

@[simp] theorem advance_nextHandle (dom : Dom) (dt : Nat) (w : World) :
    (advance dom dt w).nextHandle = w.nextHandle :=
  (foldTimers_fields dom _ _).2.2.2.1

theorem findNode_some {p : ElementInfo → Bool} {l : List ElementInfo} {i : Node}
    (h : findNode p l = some i) : ∃ e, l[i]? = some e ∧ p e = true := by
  induction l generalizing i with
  | nil => simp [findNode] at h
  | cons a l ih =>
    unfold findNode at h
    by_cases ha : p a = true
    · simp only [ha, if_true, Option.some.injEq] at h
      subst h
      exact ⟨a, by simp, ha⟩
    · simp only [ha, Bool.false_eq_true, if_false, Option.map_eq_some'] at h
      obtain ⟨j, hj, rfl⟩ := h
      obtain ⟨e, he, hp⟩ := ih hj
      exact ⟨e, by simpa using he, hp⟩

theorem getElementById_ne {doc : Document} {a b : String} {i j : Node} (hab : a ≠ b)
    (hi : doc.getElementById a = some i) (hj : doc.getElementById b = some j) : i ≠ j := by
  intro hij
  subst hij
  obtain ⟨e, he, hp⟩ := findNode_some hi
  obtain ⟨e2, he2, hp2⟩ := findNode_some hj
  rw [he] at he2
  cases he2
  simp only [decide_eq_true_eq] at hp hp2
  rw [hp] at hp2
  exact hab (Option.some.inj hp2)

theorem documentElement_of_lookup {doc : Document} {a : String} {i : Node}
    (hi : doc.getElementById a = some i) : doc.documentElement = some 0 := by
  unfold Document.documentElement
  unfold Document.getElementById at hi
  cases hn : doc.nodes with
  | nil => rw [hn] at hi; simp [findNode] at hi
  | cons a l => simp

theorem DOM_of_present (doc : Document) (hdr d t b c o : Node) (h : Host)
    (h1 : doc.getElementById "mainHeader" = some hdr)
    (h2 : doc.getElementById "sideDrawer" = some d)
    (h3 : doc.getElementById "menuToggle" = some t)
    (h4 : doc.queryClass "menu-bars" = some b)
    (h5 : doc.queryClass "menu-x" = some c)
    (h6 : doc.getElementById "drawerOverlay" = some o) :
    DOM doc h = (h, some (⟨0, hdr, d, t, b, c, o⟩ : Dom)) := by
  have h0 := documentElement_of_lookup h1
  simp [DOM, missingElements, entryVerdicts, lookupElements, freezeElements, h0, h1, h2, h3,
    h4, h5, h6]

/-! ## Element registry: fail closed -/

/-- C1: when one of the six required elements (header, drawer, toggle, bars
icon, close icon, overlay) is absent, the script returns normally, with no
exception raised, and leaves the listener table empty (no click, keydown
or DOMContentLoaded listener), creates no observer and no sentinel, never
runs `init`, and writes to the console a warning that lists the key of every
missing element followed by the abort message; a later DOMContentLoaded
finds nothing to run. -/
theorem registry_fails_closed (doc : Document)
    (h : doc.getElementById "mainHeader" = none ∨ doc.getElementById "sideDrawer" = none ∨
      doc.getElementById "menuToggle" = none ∨ doc.queryClass "menu-bars" = none ∨
      doc.queryClass "menu-x" = none ∨ doc.getElementById "drawerOverlay" = none) :
    (runScript doc).listeners = [] ∧ (runScript doc).observers = [] ∧
    (runScript doc).sentinels = [] ∧ (runScript doc).initRuns = 0 ∧
    (runScript doc).console =
      [ConsoleMsg.warn "Missing DOM elements:" (missingElements (lookupElements doc)),
       ConsoleMsg.error "Required DOM elements not found. Initialization aborted."] ∧
    (doc.getElementById "mainHeader" = none → "header" ∈ missingElements (lookupElements doc)) ∧
    (doc.getElementById "sideDrawer" = none → "drawer" ∈ missingElements (lookupElements doc)) ∧
    (doc.getElementById "menuToggle" = none →
      "menuToggle" ∈ missingElements (lookupElements doc)) ∧
    (doc.queryClass "menu-bars" = none → "menuIcons" ∈ missingElements (lookupElements doc)) ∧
    (doc.queryClass "menu-x" = none → "menuIcons" ∈ missingElements (lookupElements doc)) ∧
    (doc.getElementById "drawerOverlay" = none →
      "overlay" ∈ missingElements (lookupElements doc)) ∧
    fireDOMContentLoaded (runScript doc) = runScript doc ∧
    pageLoaded doc = runScript doc ∧
    (runScript doc).uncaught = none := by
  have n1 : doc.getElementById "mainHeader" = none →
      "header" ∈ missingElements (lookupElements doc) := by
    intro h1; rw [mem_missingElements]; simp [entryVerdicts, lookupElements, h1]
  have n2 : doc.getElementById "sideDrawer" = none →
      "drawer" ∈ missingElements (lookupElements doc) := by
    intro h1; rw [mem_missingElements]; simp [entryVerdicts, lookupElements, h1]
  have n3 : doc.getElementById "menuToggle" = none →
      "menuToggle" ∈ missingElements (lookupElements doc) := by
    intro h1; rw [mem_missingElements]; simp [entryVerdicts, lookupElements, h1]
  have n4 : doc.queryClass "menu-bars" = none →
      "menuIcons" ∈ missingElements (lookupElements doc) := by
    intro h1; rw [mem_missingElements]; simp [entryVerdicts, lookupElements, h1]
  have n5 : doc.queryClass "menu-x" = none →
      "menuIcons" ∈ missingElements (lookupElements doc) := by
    intro h1; rw [mem_missingElements]; simp [entryVerdicts, lookupElements, h1]
  have n6 : doc.getElementById "drawerOverlay" = none →
      "overlay" ∈ missingElements (lookupElements doc) := by
    intro h1; rw [mem_missingElements]; simp [entryVerdicts, lookupElements, h1]
  have hpos : 0 < (missingElements (lookupElements doc)).length := by
    rcases h with h | h | h | h | h | h
    · exact missing_pos_of_mem (n1 h)
    · exact missing_pos_of_mem (n2 h)
    · exact missing_pos_of_mem (n3 h)
    · exact missing_pos_of_mem (n4 h)
    · exact missing_pos_of_mem (n5 h)
    · exact missing_pos_of_mem (n6 h)
  have hrun := runScript_of_missing doc hpos
  have hfire : fireDOMContentLoaded (runScript doc) = runScript doc := by
    rw [hrun]; simp [fireDOMContentLoaded, Host.fresh]
  refine ⟨?_, ?_, ?_, ?_, ?_, n1, n2, n3, n4, n5, n6, hfire, ?_, ?_⟩
  · rw [hrun]; rfl
  · rw [hrun]; rfl
  · rw [hrun]; rfl
  · rw [hrun]; rfl
  · rw [hrun]
  · unfold pageLoaded
    split
    · exact hfire
    · rfl
  · rw [hrun]; rfl

/-- C1 witness: the sample page without its overlay, while still loading. -/
theorem registry_fails_closed_witness :
    (runScript pageWithoutOverlay).listeners = [] ∧
    (runScript pageWithoutOverlay).console =
      [ConsoleMsg.warn "Missing DOM elements:" ["overlay"],
       ConsoleMsg.error "Required DOM elements not found. Initialization aborted."] := by
  have h := registry_fails_closed pageWithoutOverlay
    (Or.inr (Or.inr (Or.inr (Or.inr (Or.inr (by decide))))))
  refine ⟨h.1, ?_⟩
  rw [h.2.2.2.2.1]
  decide

/-! ## Start-up wiring -/

/-- C2, counterexample: in a document that has all six required elements
but whose `document.body` is `null`, line 94 raises a `TypeError` before
`init` is defined; the script ends there with no listener attached and
`init` never run. -/
theorem all_elements_without_body_attach_nothing :
    pageWithoutBody.getElementById "mainHeader" = some 2 ∧
    pageWithoutBody.getElementById "sideDrawer" = some 6 ∧
    pageWithoutBody.getElementById "menuToggle" = some 3 ∧
    pageWithoutBody.queryClass "menu-bars" = some 4 ∧
    pageWithoutBody.queryClass "menu-x" = some 5 ∧
    pageWithoutBody.getElementById "drawerOverlay" = some 7 ∧
    (pageLoaded pageWithoutBody).listeners = [] ∧
    (pageLoaded pageWithoutBody).initRuns = 0 ∧
    (pageLoaded pageWithoutBody).uncaught = some ScriptError.typeError := by
  decide

/-- C2, amended: when all six required elements are present, `document.body`
is not `null` and `IntersectionObserver` is defined, then for every value of
`document.readyState` the script raises no exception, and once the page has
loaded `init` has run exactly once and the listener table holds exactly the
four documented registrations, each once: smooth scroll on document click,
toggle drawer on the click of the menu toggle and of the overlay, escape key
on document keydown.  A document that was not loading has them as soon as the
script returns; a loading one holds only the one-shot DOMContentLoaded
registration of `init` until that event fires, which removes it.  A repeated
DOMContentLoaded changes nothing. -/
theorem init_attaches_documented_listeners_once (doc : Document) (hdr d t b c o : Node)
    (h1 : doc.getElementById "mainHeader" = some hdr)
    (h2 : doc.getElementById "sideDrawer" = some d)
    (h3 : doc.getElementById "menuToggle" = some t)
    (h4 : doc.queryClass "menu-bars" = some b)
    (h5 : doc.queryClass "menu-x" = some c)
    (h6 : doc.getElementById "drawerOverlay" = some o)
    (hbody : doc.body ≠ none) (hio : doc.hasIntersectionObserver = true) :
    (pageLoaded doc).listeners =
      documentedListeners (⟨0, hdr, d, t, b, c, o⟩ : Dom) ∧
    (pageLoaded doc).initRuns = 1 ∧
    fireDOMContentLoaded (pageLoaded doc) = pageLoaded doc ∧
    (doc.readyState ≠ ReadyState.loading → runScript doc = pageLoaded doc) ∧
    (doc.readyState = ReadyState.loading →
      (runScript doc).listeners =
        [{ target := .document, type := "DOMContentLoaded", handler := .init,
           passive := false, once := true }] ∧
      (runScript doc).initRuns = 0) ∧
    (pageLoaded doc).uncaught = none ∧
    (pageLoaded doc).observers =
      [{ threshold := 1, rootMargin := "-10px",
         sentinelClass := "pointer-events-none absolute top-0 h-1 w-full" }] := by
  have hto : t ≠ o := getElementById_ne (by decide) h3 h6
  have hD := DOM_of_present doc hdr d t b c o Host.fresh h1 h2 h3 h4 h5 h6
  obtain ⟨bn, hbn⟩ : ∃ n, doc.body = some n := by
    cases hb : doc.body with
    | none => exact absurd hb hbody
    | some n => exact ⟨n, rfl⟩
  unfold pageLoaded runScript
  rw [hD]
  by_cases hr : doc.readyState = ReadyState.loading
  · simp [hr, hio, hbn, fireDOMContentLoaded, Host.invoke, init,
      addEventListener, installHeaderObserver, Host.fresh, Listener.sameRegistration,
      documentedListeners, hto]
  · simp [hr, hio, hbn, fireDOMContentLoaded, Host.invoke, init,
      addEventListener, installHeaderObserver, Host.fresh, Listener.sameRegistration,
      documentedListeners, hto]

/-- C2 witness: the sample page, for which the six look-ups succeed and
which has a body and an observer-capable browser. -/
theorem init_attaches_documented_listeners_once_witness :
    (pageLoaded samplePage).listeners =
      documentedListeners (⟨0, 2, 6, 3, 4, 5, 7⟩ : Dom) ∧
    (pageLoaded samplePage).initRuns = 1 ∧
    (pageLoaded samplePage).uncaught = none :=
  let h := init_attaches_documented_listeners_once samplePage 2 6 3 4 5 7
    (by decide) (by decide) (by decide) (by decide) (by decide) (by decide)
    (by decide) (by decide)
  ⟨h.1, h.2.1, h.2.2.2.2.2.1⟩

/-! ## Escape key -/

/-- C5: for every key and every state, `handlers.keyPress` changes
`isDrawerOpen` exactly when the key is Escape and the drawer is open; in
that case the flag becomes false and the result is the animation driver
called with false on the state with the flag cleared, which requests a frame
(the handle counter moves) for the closing callback; in every other case
(Escape while closed, any other key) the whole
state, flag, frames and timers included, is returned unchanged. -/
theorem keyPress_closes_only_open_drawer_on_escape (key : String) (w : World) :
    ((keyPress key w).isDrawerOpen ≠ w.isDrawerOpen ↔
      (key = "Escape" ∧ w.isDrawerOpen = true)) ∧
    ((keyPress key w).nextHandle ≠ w.nextHandle ↔ (key = "Escape" ∧ w.isDrawerOpen = true)) ∧
    ((key = "Escape" ∧ w.isDrawerOpen = true) →
      keyPress key w = animateDrawer false { w with isDrawerOpen := false } ∧
      (keyPress key w).isDrawerOpen = false ∧
      (keyPress key w).frames =
        (cancelAnimationFrame w.frameId w).frames ++
          [(w.nextHandle, FrameCallback.drawer false)] ∧
      (keyPress key w).timers = w.timers) ∧
    (¬ (key = "Escape" ∧ w.isDrawerOpen = true) → keyPress key w = w) := by
  by_cases h : key = "Escape" ∧ w.isDrawerOpen = true
  · obtain ⟨hk, ho⟩ := h
    have hkp : keyPress key w = animateDrawer false { w with isDrawerOpen := false } := by
      simp [keyPress, hk, ho, toggleDrawer]
    have hfr : (keyPress key w).frames =
        (cancelAnimationFrame w.frameId w).frames ++
          [(w.nextHandle, FrameCallback.drawer false)] := by
      rw [hkp, animateDrawer_frames]
      cases w.frameId <;> rfl
    have hne : (keyPress key w).nextHandle ≠ w.nextHandle := by
      rw [hkp]; simp
    refine ⟨?_, ?_, ?_, ?_⟩
    · rw [hkp]; simp [hk, ho]
    · simp only [hk, ho, and_self, iff_true]
      simpa [hk, ho] using hne
    · intro _
      refine ⟨?_, ?_, ?_, ?_⟩
      · simpa [hk, ho] using hkp
      · rw [hkp]; simp
      · simpa [hk, ho] using hfr
      · rw [hkp]; simp
    · intro hn
      exact absurd ⟨hk, ho⟩ hn
  · have hw : keyPress key w = w := by simp [keyPress, h]
    refine ⟨?_, ?_, ?_, ?_⟩
    · rw [hw]; simp [h]
    · rw [hw]; simp [h]
    · intro hh; exact absurd hh h
    · intro _; exact hw

/-! ## Smooth scrolling -/

theorem closestHashLink_startsWithHash {e : Click} {href : String}
    (h : e.closestHashLink = some href) : startsWithHash href = true := by
  unfold Click.closestHashLink at h
  obtain ⟨a, _, ha⟩ := List.exists_of_findSome?_eq_some h
  cases a with
  | none => simp at ha
  | some s =>
    by_cases hs : startsWithHash s = true
    · simp only [hs, if_true, Option.some.injEq] at ha
      rw [← ha]; exact hs
    · simp [hs] at ha

/-- C6: for every click whose nearest enclosing hash link has an `href`
other than `#` that selects an existing element, the handler returns, issues
exactly one scroll request, with `top` equal to the bounding-rect top of the
target plus the page Y offset minus the `offsetHeight` of the header and with
smooth behaviour, and leaves `isDrawerOpen` false: an open drawer is toggled
shut, a closed one is left as it was.  The number type is arbitrary. -/
theorem smoothScroll_offsets_by_header_and_closes {ν : Type} [Add ν] [Sub ν]
    (view : Viewport ν) (e : Click) (w : World) (href : String) (target : ScrollTarget ν)
    (hlink : e.closestHashLink = some href) (hne : href ≠ "#")
    (hq : view.querySelector href = .ok (some target)) :
    ∃ r, smoothScroll view e w = .ok r ∧
      r.scrolls = [{ top := target.rectTop + view.pageYOffset - view.headerOffsetHeight,
                     behavior := "smooth" }] ∧
      r.world.isDrawerOpen = false ∧
      (w.isDrawerOpen = true → r.world = toggleDrawer w) ∧
      (w.isDrawerOpen = false → r.world = w) ∧
      startsWithHash href = true := by
  have hs : smoothScroll view e w = .ok
      { world := if w.isDrawerOpen then toggleDrawer w else w
        preventDefaultCalled := true
        scrolls := [{ top := target.rectTop + view.pageYOffset - view.headerOffsetHeight,
                      behavior := "smooth" }] } := by
    simp only [smoothScroll, hlink, hne, if_false, hq]
  refine ⟨_, hs, rfl, ?_, ?_, ?_, closestHashLink_startsWithHash hlink⟩
  · cases ho : w.isDrawerOpen <;> simp [ho, toggleDrawer]
  · intro ho; simp [ho]
  · intro ho; simp [ho]

/-- C6 witness: a click inside the `#about` link of the sample page scrolls
to 640 + 120 - 64 = 696. -/
theorem smoothScroll_offsets_by_header_and_closes_witness :
    ∃ r, smoothScroll sampleViewport clickInsideAboutLink (World.initial samplePage) = .ok r ∧
      r.scrolls = [{ top := 696, behavior := "smooth" }] ∧ r.world.isDrawerOpen = false := by
  obtain ⟨r, h1, h2, h3, _⟩ := smoothScroll_offsets_by_header_and_closes sampleViewport
    clickInsideAboutLink (World.initial samplePage) "#about" { rectTop := 640 }
    (by decide) (by decide) rfl
  exact ⟨r, h1, h2, h3⟩

/-- For a link whose `href` is a well-formed selector that matches nothing,
and for a click outside every hash link, the handler returns having done
nothing at all. -/
theorem smoothScroll_ignores_unmatched {ν : Type} [Add ν] [Sub ν]
    (view : Viewport ν) (e : Click) (w : World)
    (h : e.closestHashLink = none ∨
      ∃ href, e.closestHashLink = some href ∧ view.querySelector href = .ok none) :
    smoothScroll view e w = .ok { world := w, preventDefaultCalled := false, scrolls := [] } := by
  rcases h with h | ⟨href, h, hq⟩
  · simp [smoothScroll, h]
  · by_cases hh : href = "#"
    · simp [smoothScroll, h, hh]
    · simp [smoothScroll, h, hh, hq]

/-- C7, evaluated at the failing input: a click on `<a href="#123">`, whose
`href` names no element and is not a selector, makes `querySelector` raise
a `SyntaxError`, and the handler does not return normally. -/
theorem smoothScroll_throws_on_numeric_fragment :
    smoothScroll sampleViewport clickOnNumericLink (World.initial samplePage) =
      Except.error DOMException.syntaxError := by
  rfl

/-- Every listener that carries the smooth-scroll handler once the page has
loaded is passive, so no call of `preventDefault` made by it takes effect. -/
theorem smoothScroll_listener_is_passive {ν : Type} (doc : Document) (l : Listener)
    (r : HandlerResult ν) (hl : l ∈ (pageLoaded doc).listeners)
    (hh : l.handler = Handler.smoothScroll) : defaultPrevented l r = false := by
  have hp : l.passive = true := by
    have key : ∀ k ∈ (pageLoaded doc).listeners, k.handler = Handler.smoothScroll →
        k.passive = true := by
      unfold pageLoaded runScript
      rcases hD : DOM doc Host.fresh with ⟨h, _ | dom⟩
      · have hh0 : h.listeners = [] := by
          have h1 := congrArg (fun p => p.1.listeners) hD
          simp only [DOM] at h1
          split at h1
          · exact h1.symm
          · exact h1.symm
        simp [fireDOMContentLoaded, hh0]
      · have hh0 : h = Host.fresh := by
          have h1 := congrArg (fun p => p.1) hD
          have h2 := congrArg (fun p => p.2) hD
          simp only [DOM] at h1 h2
          split at h1
          · rename_i hm
            rw [if_pos hm] at h2
            cases h2
          · exact h1.symm
        subst hh0
        cases hio : doc.hasIntersectionObserver <;> cases hbd : doc.body <;>
          by_cases hr : doc.readyState = ReadyState.loading <;>
          by_cases hto : dom.menuToggle = dom.overlay <;>
          simp [hr, hio, hbd, fireDOMContentLoaded, Host.invoke, init, addEventListener,
            installHeaderObserver, Host.fresh, Listener.sameRegistration, hto]
    exact key l hl hh
  simp [defaultPrevented, hp]

/-- C8, evaluated at the failing input: on the sample page the smooth-scroll
handler is registered as a passive listener; for a click inside the `#about`
link it calls `preventDefault` and requests its smooth scroll, yet the event
is not default-prevented, so the navigation to the fragment goes ahead. -/
theorem smoothScroll_preventDefault_is_ignored :
    ∃ l r, l ∈ (pageLoaded samplePage).listeners ∧ l.handler = Handler.smoothScroll ∧
      l.type = "click" ∧ l.passive = true ∧
      smoothScroll sampleViewport clickInsideAboutLink (World.initial samplePage) = .ok r ∧
      r.preventDefaultCalled = true ∧ defaultPrevented l r = false := by
  refine ⟨{ target := .document, type := "click", handler := .smoothScroll, passive := true,
            once := false }, _, ?_, rfl, rfl, rfl, rfl, rfl, rfl⟩
  decide

/-! ## Header watcher -/

/-- C10: a visibility notification changes nothing but the browser queue: it
requests one frame that carries the `isIntersecting` of its first entry.
Once the animation frame has run, the header has the class `shadow-md` if
and only if that entry was not intersecting.  The frame callback touches no
class list but that of the header, no token of the header but `shadow-md`,
and neither the flag, the timers, the stored handle nor the queue. -/
theorem header_shadow_tracks_sentinel (dom : Dom) (w : World) (entry : Bool)
    (more : List Bool) :
    observerCallback entry more w =
      { w with nextHandle := w.nextHandle + 1
               frames := w.frames ++ [(w.nextHandle, FrameCallback.header entry)] } ∧
    (runFrames dom (observerCallback entry more w)).hasClass dom.header "shadow-md"
      = !entry ∧
    (∀ u : World, (headerFrame dom entry u).hasClass dom.header "shadow-md" = !entry) ∧
    (∀ (u : World) (n : Node), n ≠ dom.header →
      (headerFrame dom entry u).classes n = u.classes n) ∧
    (∀ (u : World) (c : String), c ≠ "shadow-md" →
      (c ∈ (headerFrame dom entry u).classes dom.header ↔ c ∈ u.classes dom.header)) ∧
    (∀ u : World, (headerFrame dom entry u).isDrawerOpen = u.isDrawerOpen ∧
      (headerFrame dom entry u).timers = u.timers ∧
      (headerFrame dom entry u).frames = u.frames ∧
      (headerFrame dom entry u).frameId = u.frameId) := by
  have hcb : ∀ u : World, (headerFrame dom entry u).hasClass dom.header "shadow-md" = !entry := by
    intro u
    cases entry <;>
      simp [World.hasClass, headerFrame, classList_classes, mem_tokenToggle]
  refine ⟨rfl, ?_, hcb, ?_, ?_, ?_⟩
  · have : runFrames dom (observerCallback entry more w) =
        headerFrame dom entry
          (w.frames.foldl (fun u f => runFrameCallback dom f.2 u)
            { observerCallback entry more w with frames := [] }) := by
      simp [runFrames, observerCallback, requestAnimationFrame, List.foldl_append,
        runFrameCallback]
    rw [this]
    exact hcb _
  · intro u n hn
    simp [headerFrame, classList_classes, hn]
  · intro u c hc
    cases entry <;> simp [headerFrame, classList_classes, mem_tokenToggle, hc]
  · intro u
    exact ⟨rfl, rfl, rfl, rfl⟩

/-! ## Latest request wins -/

theorem wellFormed_iff (w : World) :
    w.wellFormed = true ↔
      (∀ f ∈ w.frames, f.1 < w.nextHandle ∧ (f.2.isDrawer = true ↔ w.frameId = some f.1)) ∧
      (∀ i, w.frameId = some i → i < w.nextHandle) := by
  unfold World.wellFormed
  simp only [Bool.and_eq_true, List.all_eq_true, decide_eq_true_eq, beq_iff_eq]
  constructor
  · rintro ⟨h1, h2⟩
    refine ⟨fun f hf => ⟨(h1 f hf).1, ?_⟩, ?_⟩
    · have := (h1 f hf).2
      rw [this]; simp
    · intro i hi
      rw [hi] at h2
      simpa using h2
  · rintro ⟨h1, h2⟩
    refine ⟨fun f hf => ⟨(h1 f hf).1, ?_⟩, ?_⟩
    · have := (h1 f hf).2
      by_cases hd : w.frameId = some f.1
      · simp [hd, this.2 hd]
      · have hnd : f.2.isDrawer = false := by
          cases hb : f.2.isDrawer
          · rfl
          · exact absurd (this.1 hb) hd
        simp [hd, hnd]
    · cases hid : w.frameId with
      | none => rfl
      | some i => simpa using h2 i hid

theorem cancel_of_wellFormed (w : World) (hw : w.wellFormed = true) :
    (cancelAnimationFrame w.frameId w).frames = w.frames.filter (fun f => !f.2.isDrawer) := by
  obtain ⟨h1, _⟩ := (wellFormed_iff w).1 hw
  cases hid : w.frameId with
  | none =>
    simp only [cancelAnimationFrame]
    symm
    rw [List.filter_eq_self]
    intro f hf
    have := (h1 f hf).2
    rw [hid] at this
    cases hb : f.2.isDrawer
    · rfl
    · exact absurd (this.1 hb) (by simp)
  | some i =>
    simp only [cancelAnimationFrame]
    apply List.filter_congr
    intro f hf
    have := (h1 f hf).2
    rw [hid] at this
    cases hb : f.2.isDrawer
    · have hne : f.1 ≠ i := by
        intro he
        have := this.2 (by rw [he])
        rw [hb] at this
        cases this
      simp [hne]
    · have he : i = f.1 := Option.some.inj (this.1 hb)
      simp [he]

theorem animateDrawer_of_wellFormed (b : Bool) (w : World) (hw : w.wellFormed = true) :
    (animateDrawer b w).frames =
      w.frames.filter (fun f => !f.2.isDrawer) ++ [(w.nextHandle, FrameCallback.drawer b)] ∧
    (animateDrawer b w).wellFormed = true := by
  have hfr : (animateDrawer b w).frames =
      w.frames.filter (fun f => !f.2.isDrawer) ++ [(w.nextHandle, FrameCallback.drawer b)] := by
    rw [animateDrawer_frames, cancel_of_wellFormed w hw]
  refine ⟨hfr, ?_⟩
  obtain ⟨h1, _⟩ := (wellFormed_iff w).1 hw
  rw [wellFormed_iff]
  refine ⟨?_, ?_⟩
  · intro f hf
    rw [hfr, List.mem_append, List.mem_filter, List.mem_singleton] at hf
    rw [animateDrawer_nextHandle, animateDrawer_frameId]
    rcases hf with ⟨hf, hnd⟩ | rfl
    · have hlt := (h1 f hf).1
      refine ⟨Nat.lt_succ_of_lt hlt, ?_⟩
      have hnd2 : f.2.isDrawer = false := by simpa using hnd
      constructor
      · intro hd; rw [hnd2] at hd; cases hd
      · intro he
        have : w.nextHandle = f.1 := Option.some.inj he
        omega
    · exact ⟨Nat.lt_succ_self _, by simp [FrameCallback.isDrawer]⟩
  · intro i hi
    rw [animateDrawer_frameId] at hi
    rw [animateDrawer_nextHandle]
    have : w.nextHandle = i := Option.some.inj hi
    omega

theorem animateDrawerCalls_snoc (bs : List Bool) (b : Bool) (w : World) :
    animateDrawerCalls (bs ++ [b]) w = animateDrawer b (animateDrawerCalls bs w) := by
  simp [animateDrawerCalls, List.foldl_append]

theorem animateDrawerCalls_invariant (bs : List Bool) (w : World) (hw : w.wellFormed = true) :
    (animateDrawerCalls bs w).wellFormed = true ∧
    (animateDrawerCalls bs w).frames.filter (fun f => !f.2.isDrawer) =
      w.frames.filter (fun f => !f.2.isDrawer) ∧
    (animateDrawerCalls bs w).nextHandle = w.nextHandle + bs.length ∧
    (animateDrawerCalls bs w).timers = w.timers ∧
    (animateDrawerCalls bs w).classes = w.classes ∧
    (animateDrawerCalls bs w).isDrawerOpen = w.isDrawerOpen ∧
    (animateDrawerCalls bs w).now = w.now := by
  induction bs using List.reverseRecOn with
  | nil => simp [animateDrawerCalls, hw]
  | append_singleton bs b ih =>
    obtain ⟨i1, i2, i3, i4, i5, i6, i7⟩ := ih
    rw [animateDrawerCalls_snoc]
    obtain ⟨hfr, hwf⟩ := animateDrawer_of_wellFormed b _ i1
    refine ⟨hwf, ?_, ?_, ?_, ?_, ?_, ?_⟩
    · have hone : List.filter (fun f => !f.2.isDrawer)
          [((animateDrawerCalls bs w).nextHandle, FrameCallback.drawer b)] = [] := rfl
      rw [hfr, List.filter_append, List.filter_filter, hone, List.append_nil]
      simp only [Bool.and_self]
      exact i2
    · rw [animateDrawer_nextHandle, i3, List.length_append, List.length_singleton]
      omega
    · rw [animateDrawer_timers, i4]
    · rw [animateDrawer_classes, i5]
    · rw [animateDrawer_isDrawerOpen, i6]
    · rw [animateDrawer_now, i7]

theorem wellFormed_congr {w u : World} (hf : u.frames = w.frames)
    (hi : u.frameId = w.frameId) (hn : u.nextHandle = w.nextHandle) :
    u.wellFormed = w.wellFormed := by
  unfold World.wellFormed
  rw [hf, hi, hn]

theorem wellFormed_initial (doc : Document) : (World.initial doc).wellFormed = true := rfl

theorem wellFormed_toggleDrawer (w : World) (hw : w.wellFormed = true) :
    (toggleDrawer w).wellFormed = true :=
  (animateDrawer_of_wellFormed (!w.isDrawerOpen) { w with isDrawerOpen := !w.isDrawerOpen }
    hw).2

theorem wellFormed_observerCallback (entry : Bool) (more : List Bool) (w : World)
    (hw : w.wellFormed = true) : (observerCallback entry more w).wellFormed = true := by
  obtain ⟨h1, h2⟩ := (wellFormed_iff w).1 hw
  rw [wellFormed_iff]
  simp only [observerCallback, requestAnimationFrame]
  refine ⟨?_, ?_⟩
  · intro f hf
    rw [List.mem_append, List.mem_singleton] at hf
    rcases hf with hf | rfl
    · exact ⟨Nat.lt_succ_of_lt (h1 f hf).1, (h1 f hf).2⟩
    · refine ⟨Nat.lt_succ_self _, ?_⟩
      constructor
      · intro hd; cases hd
      · intro he
        have := h2 _ he
        omega
  · intro i hi
    exact Nat.lt_succ_of_lt (h2 i hi)

/-- The handle bookkeeping is well formed after every turn of the event
loop, hence in every state reachable from the start. -/
theorem wellFormed_step (dom : Dom) (w : World) (e : Event) (hw : w.wellFormed = true) :
    (step dom w e).wellFormed = true := by
  cases e with
  | toggle => exact wellFormed_toggleDrawer w hw
  | key k =>
    simp only [step, keyPress]
    split
    · exact wellFormed_toggleDrawer w hw
    · exact hw
  | linkClick view c =>
    simp only [step, smoothScroll]
    split
    · rename_i r hr
      split at hr
      · cases hr; exact hw
      · split at hr
        · cases hr; exact hw
        · split at hr
          · cases hr
          · cases hr; exact hw
          · cases hr
            by_cases ho : w.isDrawerOpen = true
            · simp only [ho, if_true]; exact wellFormed_toggleDrawer w hw
            · simp only [ho]; exact hw
    · exact hw
  | observe entry more => exact wellFormed_observerCallback entry more w hw
  | frame =>
    rw [wellFormed_iff]
    simp only [step, runFrames_frames, runFrames_frameId, runFrames_nextHandle]
    exact ⟨fun f hf => absurd hf (List.not_mem_nil f), ((wellFormed_iff w).1 hw).2⟩
  | advance dt =>
    have := wellFormed_congr (advance_frames dom dt w) (advance_frameId dom dt w)
      (advance_nextHandle dom dt w)
    simp only [step]
    rw [this]; exact hw

theorem wellFormed_run (dom : Dom) (doc : Document) (es : List Event) :
    (run dom (World.initial doc) es).wellFormed = true := by
  induction es using List.reverseRecOn with
  | nil => exact wellFormed_initial doc
  | append_singleton es e ih =>
    simp only [run, List.foldl_append, List.foldl_cons, List.foldl_nil]
    exact wellFormed_step dom _ e ih

theorem managed_false_iff (dom : Dom) (n : Node) (c : String) :
    managed dom n c = false ↔
      ¬ (n = dom.drawer ∧ c = "translate-x-full") ∧ ¬ (n = dom.drawer ∧ c = "translate-x-0") ∧
      ¬ (n = dom.overlay ∧ c = "invisible") ∧ ¬ (n = dom.overlay ∧ c = "opacity-0") ∧
      ¬ (n = dom.bars ∧ c = "hidden") ∧ ¬ (n = dom.close ∧ c = "hidden") ∧
      ¬ (n = dom.html ∧ c = "overflow-hidden") := by
  simp [managed, and_assoc]

theorem drawerFrame_others (dom : Dom) (b : Bool) (w : World) (n : Node) (c : String)
    (hm : managed dom n c = false) :
    c ∈ (drawerFrame dom b w).classes n ↔ c ∈ w.classes n := by
  obtain ⟨m1, m2, m3, m4, m5, m6, m7⟩ := (managed_false_iff dom n c).1 hm
  rw [mem_drawerFrame]
  by_cases h1 : c = "translate-x-full"
  · have : n ≠ dom.drawer := fun h => m1 ⟨h, h1⟩
    simp [h1, this]
  by_cases h2 : c = "translate-x-0"
  · have : n ≠ dom.drawer := fun h => m2 ⟨h, h2⟩
    simp [h2, this]
  by_cases h3 : c = "invisible"
  · have : n ≠ dom.overlay := fun h => m3 ⟨h, h3⟩
    simp [h3, this]
  by_cases h4 : c = "opacity-0"
  · have : n ≠ dom.overlay := fun h => m4 ⟨h, h4⟩
    simp [h4, this]
  by_cases h5 : c = "hidden"
  · have hb : n ≠ dom.bars := fun h => m5 ⟨h, h5⟩
    have hc : n ≠ dom.close := fun h => m6 ⟨h, h5⟩
    simp [h5, hb, hc]
  by_cases h6 : c = "overflow-hidden"
  · have : n ≠ dom.html := fun h => m7 ⟨h, h6⟩
    simp [h6, this]
  simp [h1, h2, h3, h4, h5, h6]

theorem foldHeaderFrames (dom : Dom) (fs : List (Nat × FrameCallback))
    (hfs : ∀ f ∈ fs, f.2.isDrawer = false) (u : World) :
    (fs.foldl (fun u f => runFrameCallback dom f.2 u) u).timers = u.timers ∧
    (fs.foldl (fun u f => runFrameCallback dom f.2 u) u).now = u.now ∧
    ∀ (n : Node) (c : String), ¬ (n = dom.header ∧ c = "shadow-md") →
      (c ∈ (fs.foldl (fun u f => runFrameCallback dom f.2 u) u).classes n ↔
        c ∈ u.classes n) := by
  induction fs generalizing u with
  | nil => exact ⟨rfl, rfl, fun _ _ _ => Iff.rfl⟩
  | cons f fs ih =>
    simp only [List.foldl_cons]
    have hrest : ∀ g ∈ fs, g.2.isDrawer = false :=
      fun g hg => hfs g (List.mem_cons_of_mem _ hg)
    have hf := hfs f (List.mem_cons_self _ _)
    obtain ⟨i1, i2, i3⟩ := ih hrest (runFrameCallback dom f.2 u)
    obtain ⟨id, cb⟩ := f
    cases cb with
    | drawer x => simp [FrameCallback.isDrawer] at hf
    | header x =>
      refine ⟨by rw [i1]; rfl, by rw [i2]; rfl, ?_⟩
      intro n c hnc
      rw [i3 n c hnc]
      simp only [runFrameCallback, headerFrame]
      by_cases hc : c = "shadow-md"
      · subst hc
        have hn : n ≠ dom.header := fun h => hnc ⟨h, rfl⟩
        rw [mem_classList_toggle_self]
        simp [hn]
      · exact mem_classList_toggle_ne _ _ _ _ _ _ hc

/-- Latest request wins, from any state whose handle bookkeeping is well
formed. -/
theorem latest_request_wins_of_wellFormed (dom : Dom) (w : World) (hw : w.wellFormed = true)
    (bs : List Bool) (b : Bool) :
    (animateDrawerCalls (bs ++ [b]) w).frames.filter (fun f => f.2.isDrawer) =
      [(w.nextHandle + bs.length, FrameCallback.drawer b)] ∧
    (animateDrawerCalls (bs ++ [b]) w).frames =
      w.frames.filter (fun f => !f.2.isDrawer) ++
        [(w.nextHandle + bs.length, FrameCallback.drawer b)] ∧
    (animateDrawerCalls (bs ++ [b]) w).frameId = some (w.nextHandle + bs.length) ∧
    runFrames dom (animateDrawerCalls (bs ++ [b]) w) =
      drawerFrame dom b
        ((w.frames.filter (fun f => !f.2.isDrawer)).foldl
          (fun u f => runFrameCallback dom f.2 u)
          { animateDrawerCalls (bs ++ [b]) w with frames := [] }) ∧
    (animateDrawerCalls (bs ++ [b]) w).timers = w.timers ∧
    (animateDrawerCalls (bs ++ [b]) w).classes = w.classes ∧
    (animateDrawerCalls (bs ++ [b]) w).isDrawerOpen = w.isDrawerOpen ∧
    ("translate-x-0" ∈ (runFrames dom (animateDrawerCalls (bs ++ [b]) w)).classes dom.drawer ↔ b = true) ∧
    ("translate-x-full" ∈ (runFrames dom (animateDrawerCalls (bs ++ [b]) w)).classes dom.drawer ↔ b = false) ∧
    (b = true → "invisible" ∉ (runFrames dom (animateDrawerCalls (bs ++ [b]) w)).classes dom.overlay) ∧
    (b = true → ("opacity-0" ∈ (runFrames dom (animateDrawerCalls (bs ++ [b]) w)).classes dom.overlay ↔
      "opacity-0" ∈ w.classes dom.overlay)) ∧
    (b = false → "opacity-0" ∈ (runFrames dom (animateDrawerCalls (bs ++ [b]) w)).classes dom.overlay) ∧
    (b = false → ("invisible" ∈ (runFrames dom (animateDrawerCalls (bs ++ [b]) w)).classes dom.overlay ↔
      "invisible" ∈ w.classes dom.overlay)) ∧
    ("hidden" ∈ (runFrames dom (animateDrawerCalls (bs ++ [b]) w)).classes dom.close ↔ b = false) ∧
    (dom.bars ≠ dom.close → ("hidden" ∈ (runFrames dom (animateDrawerCalls (bs ++ [b]) w)).classes dom.bars ↔ b = true)) ∧
    ("overflow-hidden" ∈ (runFrames dom (animateDrawerCalls (bs ++ [b]) w)).classes dom.html ↔ b = true) ∧
    (∀ (n : Node) (c : String), managed dom n c = false →
      ¬ (n = dom.header ∧ c = "shadow-md") →
      (c ∈ (runFrames dom (animateDrawerCalls (bs ++ [b]) w)).classes n ↔ c ∈ w.classes n)) ∧
    (runFrames dom (animateDrawerCalls (bs ++ [b]) w)).timers =
      insertTimer
        (if b then { due := w.now + 10, callback := TimerCallback.removeOpacity }
         else { due := w.now + 300, callback := TimerCallback.addInvisible })
        w.timers := by
  obtain ⟨i1, i2, i3, i4, i5, i6, i7⟩ := animateDrawerCalls_invariant bs w hw
  obtain ⟨hfr, hwf⟩ := animateDrawer_of_wellFormed b _ i1
  rw [i2, i3] at hfr
  have hall := animateDrawerCalls_invariant (bs ++ [b]) w hw
  have hR : runFrames dom (animateDrawerCalls (bs ++ [b]) w) =
      drawerFrame dom b
        ((w.frames.filter (fun f => !f.2.isDrawer)).foldl
          (fun u f => runFrameCallback dom f.2 u)
          { animateDrawerCalls (bs ++ [b]) w with frames := [] }) := by
    rw [animateDrawerCalls_snoc]
    unfold runFrames
    rw [hfr, List.foldl_append]
    simp [runFrameCallback]
  have hhead : ∀ f ∈ w.frames.filter (fun f => !f.2.isDrawer), f.2.isDrawer = false := by
    intro f hf
    have := (List.mem_filter.1 hf).2
    simpa using this
  obtain ⟨u1, u2, u3⟩ := foldHeaderFrames dom _ hhead
    { animateDrawerCalls (bs ++ [b]) w with frames := [] }
  have u1b : ((w.frames.filter (fun f => !f.2.isDrawer)).foldl
      (fun u f => runFrameCallback dom f.2 u)
      { animateDrawerCalls (bs ++ [b]) w with frames := [] }).timers = w.timers := by
    rw [u1]; exact hall.2.2.2.1
  have u2b : ((w.frames.filter (fun f => !f.2.isDrawer)).foldl
      (fun u f => runFrameCallback dom f.2 u)
      { animateDrawerCalls (bs ++ [b]) w with frames := [] }).now = w.now := by
    rw [u2]; exact hall.2.2.2.2.2.2
  have u3b : ∀ (n : Node) (c : String), ¬ (n = dom.header ∧ c = "shadow-md") →
      (c ∈ ((w.frames.filter (fun f => !f.2.isDrawer)).foldl
        (fun u f => runFrameCallback dom f.2 u)
        { animateDrawerCalls (bs ++ [b]) w with frames := [] }).classes n ↔
        c ∈ w.classes n) := by
    intro n c hnc
    rw [u3 n c hnc]
    have : (animateDrawerCalls (bs ++ [b]) w).classes = w.classes := hall.2.2.2.2.1
    show c ∈ (animateDrawerCalls (bs ++ [b]) w).classes n ↔ c ∈ w.classes n
    rw [this]
  refine ⟨?_, ?_, ?_, hR, hall.2.2.2.1, hall.2.2.2.2.1, hall.2.2.2.2.2.1, ?_, ?_, ?_, ?_, ?_,
    ?_, ?_, ?_, ?_, ?_, ?_⟩
  · rw [animateDrawerCalls_snoc, hfr, List.filter_append, List.filter_filter]
    simp [FrameCallback.isDrawer]
  · rw [animateDrawerCalls_snoc]; exact hfr
  · rw [animateDrawerCalls_snoc, animateDrawer_frameId, i3]
  · rw [hR, mem_drawerFrame]; simp
  · rw [hR, mem_drawerFrame]; simp
  · intro hb; rw [hR, mem_drawerFrame]; simp [hb]
  · intro hb; rw [hR, mem_drawerFrame]
    simpa [hb] using u3b dom.overlay "opacity-0" (by simp)
  · intro hb; rw [hR, mem_drawerFrame]; simp [hb]
  · intro hb; rw [hR, mem_drawerFrame]
    simpa [hb] using u3b dom.overlay "invisible" (by simp)
  · rw [hR, mem_drawerFrame]; simp
  · intro hne; rw [hR, mem_drawerFrame]; simp [hne]
  · rw [hR, mem_drawerFrame]; simp
  · intro n c hm hnc
    rw [hR, drawerFrame_others dom b _ n c hm]
    exact u3b n c hnc
  · rw [hR, drawerFrame_timers, u1b, u2b]

/-- C9: take any state the page can reach from its start by events, and
call `animate.drawer(b1)`, ..., `animate.drawer(bn)`, `n ≥ 1`, with no frame
in between.  Then exactly one drawer callback is pending, the one of the
last call: the queue is the header callbacks that were pending, in order,
followed by the callback for `bn` under the handle stored in `frameId`.
The calls cancel no timeout: the timers, and with them the class lists and
the flag, are as before the calls.  When the frame fires, the class changes
are those of `bn` alone: the drawer gets `translate-x-0` and loses
`translate-x-full` for true and the reverse for false; the overlay loses
`invisible` for true and gains `opacity-0` for false, its other token staying
as it was; the close icon is hidden for false and shown for true, the bars
icon the reverse; `html` has `overflow-hidden` exactly for true; no other
class of any element changes, apart from `shadow-md` on the header, which
belongs to the header callbacks; and the one timeout started on top of those
already pending is that of `bn`, 10 ms for true and 300 ms for false. -/
theorem latest_drawer_request_wins (dom : Dom) (doc : Document) (es : List Event)
    (bs : List Bool) (b : Bool) :
    (animateDrawerCalls (bs ++ [b]) (run dom (World.initial doc) es)).frames.filter (fun f => f.2.isDrawer) =
      [((run dom (World.initial doc) es).nextHandle + bs.length, FrameCallback.drawer b)] ∧
    (animateDrawerCalls (bs ++ [b]) (run dom (World.initial doc) es)).frames =
      (run dom (World.initial doc) es).frames.filter (fun f => !f.2.isDrawer) ++
        [((run dom (World.initial doc) es).nextHandle + bs.length, FrameCallback.drawer b)] ∧
    (animateDrawerCalls (bs ++ [b]) (run dom (World.initial doc) es)).frameId = some ((run dom (World.initial doc) es).nextHandle + bs.length) ∧
    runFrames dom (animateDrawerCalls (bs ++ [b]) (run dom (World.initial doc) es)) =
      drawerFrame dom b
        (((run dom (World.initial doc) es).frames.filter (fun f => !f.2.isDrawer)).foldl
          (fun u f => runFrameCallback dom f.2 u)
          { animateDrawerCalls (bs ++ [b]) (run dom (World.initial doc) es) with frames := [] }) ∧
    (animateDrawerCalls (bs ++ [b]) (run dom (World.initial doc) es)).timers = (run dom (World.initial doc) es).timers ∧
    (animateDrawerCalls (bs ++ [b]) (run dom (World.initial doc) es)).classes = (run dom (World.initial doc) es).classes ∧
    (animateDrawerCalls (bs ++ [b]) (run dom (World.initial doc) es)).isDrawerOpen = (run dom (World.initial doc) es).isDrawerOpen ∧
    ("translate-x-0" ∈ (runFrames dom (animateDrawerCalls (bs ++ [b]) (run dom (World.initial doc) es))).classes dom.drawer ↔ b = true) ∧
    ("translate-x-full" ∈ (runFrames dom (animateDrawerCalls (bs ++ [b]) (run dom (World.initial doc) es))).classes dom.drawer ↔ b = false) ∧
    (b = true → "invisible" ∉ (runFrames dom (animateDrawerCalls (bs ++ [b]) (run dom (World.initial doc) es))).classes dom.overlay) ∧
    (b = true → ("opacity-0" ∈ (runFrames dom (animateDrawerCalls (bs ++ [b]) (run dom (World.initial doc) es))).classes dom.overlay ↔
      "opacity-0" ∈ (run dom (World.initial doc) es).classes dom.overlay)) ∧
    (b = false → "opacity-0" ∈ (runFrames dom (animateDrawerCalls (bs ++ [b]) (run dom (World.initial doc) es))).classes dom.overlay) ∧
    (b = false → ("invisible" ∈ (runFrames dom (animateDrawerCalls (bs ++ [b]) (run dom (World.initial doc) es))).classes dom.overlay ↔
      "invisible" ∈ (run dom (World.initial doc) es).classes dom.overlay)) ∧
    ("hidden" ∈ (runFrames dom (animateDrawerCalls (bs ++ [b]) (run dom (World.initial doc) es))).classes dom.close ↔ b = false) ∧
    (dom.bars ≠ dom.close → ("hidden" ∈ (runFrames dom (animateDrawerCalls (bs ++ [b]) (run dom (World.initial doc) es))).classes dom.bars ↔ b = true)) ∧
    ("overflow-hidden" ∈ (runFrames dom (animateDrawerCalls (bs ++ [b]) (run dom (World.initial doc) es))).classes dom.html ↔ b = true) ∧
    (∀ (n : Node) (c : String), managed dom n c = false →
      ¬ (n = dom.header ∧ c = "shadow-md") →
      (c ∈ (runFrames dom (animateDrawerCalls (bs ++ [b]) (run dom (World.initial doc) es))).classes n ↔ c ∈ (run dom (World.initial doc) es).classes n)) ∧
    (runFrames dom (animateDrawerCalls (bs ++ [b]) (run dom (World.initial doc) es))).timers =
      insertTimer
        (if b then { due := (run dom (World.initial doc) es).now + 10, callback := TimerCallback.removeOpacity }
         else { due := (run dom (World.initial doc) es).now + 300, callback := TimerCallback.addInvisible })
        (run dom (World.initial doc) es).timers :=
  latest_request_wins_of_wellFormed dom (run dom (World.initial doc) es)
    (wellFormed_run dom doc es) bs b

/-- On the sample page, after an open whose frame has run (its timeout still
pending) and a sentinel notification, the calls with false, true, false leave
the header callback and the single drawer callback for false in the queue,
and the timeout of the opening frame in place. -/
theorem latest_drawer_request_wins_example :
    (animateDrawerCalls ([false, true] ++ [false])
        (run sampleDom (World.initial samplePage)
          [.toggle, .frame, .observe false []])).frames =
      [(2, FrameCallback.header false), (5, FrameCallback.drawer false)] ∧
    (animateDrawerCalls ([false, true] ++ [false])
        (run sampleDom (World.initial samplePage)
          [.toggle, .frame, .observe false []])).timers =
      [{ due := 10, callback := TimerCallback.removeOpacity }] := by
  decide

/-! ## Toggling twice -/

theorem showsDrawer_iff (w : World) (dom : Dom) (b : Bool) :
    w.showsDrawer dom b = true ↔
      ("translate-x-0" ∈ w.classes dom.drawer ↔ b = true) ∧
      ("translate-x-full" ∈ w.classes dom.drawer ↔ b = false) ∧
      ("invisible" ∈ w.classes dom.overlay ↔ b = false) ∧
      ("opacity-0" ∈ w.classes dom.overlay ↔ b = false) ∧
      ("hidden" ∈ w.classes dom.bars ↔ b = true) ∧
      ("hidden" ∈ w.classes dom.close ↔ b = false) ∧
      ("overflow-hidden" ∈ w.classes dom.html ↔ b = true) := by
  cases b <;> simp [World.showsDrawer, World.hasClass, and_assoc]

theorem tracking_start (dom : Dom) (w0 : World) (hidle : w0.idle = true)
    (hshow : w0.showsDrawer dom w0.isDrawerOpen = true) :
    Tracking dom w0 w0 w0.isDrawerOpen := by
  obtain ⟨h1, h2, h3, h4, h5, h6, h7⟩ := (showsDrawer_iff w0 dom _).1 hshow
  simp only [World.idle, Bool.and_eq_true, List.isEmpty_iff] at hidle
  exact
    { drawerFull := h2, drawerZero := h1, bars := h5, close := h6, html := h7
      overlay := Or.inl ⟨hidle.2, h3, h4⟩
      queue := Or.inl ⟨hidle.1, rfl⟩
      others := fun _ _ _ => Iff.rfl }

theorem bars_ne_close_of_shows (dom : Dom) (w : World) (b : Bool)
    (hshow : w.showsDrawer dom b = true) : dom.bars ≠ dom.close := by
  obtain ⟨_, _, _, _, h5, h6, _⟩ := (showsDrawer_iff w dom _).1 hshow
  intro he
  rw [he] at h5
  cases b <;> simp_all

theorem tracking_toggle (dom : Dom) (w0 w : World) (v : Bool) (ht : Tracking dom w0 w v) :
    Tracking dom w0 (toggleDrawer w) v := by
  have hfr : (toggleDrawer w).frames = [(w.nextHandle, FrameCallback.drawer (!w.isDrawerOpen))] := by
    unfold toggleDrawer
    rw [animateDrawer_frames]
    rcases ht.queue with ⟨hq, _⟩ | ⟨i, hq, hid⟩
    · cases hfid : w.frameId <;> simp [cancelAnimationFrame, hq, hfid]
    · simp [cancelAnimationFrame, hq, hid]
  have hcl : (toggleDrawer w).classes = w.classes := by simp [toggleDrawer]
  have htm : (toggleDrawer w).timers = w.timers := by simp [toggleDrawer]
  have hfl : (toggleDrawer w).isDrawerOpen = !w.isDrawerOpen := by simp [toggleDrawer]
  have hid : (toggleDrawer w).frameId = some w.nextHandle := by simp [toggleDrawer]
  exact
    { drawerFull := by rw [hcl]; exact ht.drawerFull
      drawerZero := by rw [hcl]; exact ht.drawerZero
      bars := by rw [hcl]; exact ht.bars
      close := by rw [hcl]; exact ht.close
      html := by rw [hcl]; exact ht.html
      overlay := by rw [hcl, htm]; exact ht.overlay
      queue := Or.inr ⟨w.nextHandle, by rw [hfr, hfl], hid⟩
      others := by rw [hcl]; exact ht.others }

theorem tracking_drawerFrame (dom : Dom) (w0 w : World) (b : Bool)
    (hne : dom.bars ≠ dom.close)
    (hothers : ∀ n c, managed dom n c = false → (c ∈ w.classes n ↔ c ∈ w0.classes n))
    (htm : w.timers = []) (hfr : w.frames = []) (hb : b = w.isDrawerOpen) :
    Tracking dom w0 (drawerFrame dom b w) b :=
  { drawerFull := by rw [mem_drawerFrame]; simp
    drawerZero := by rw [mem_drawerFrame]; simp
    bars := by rw [mem_drawerFrame]; simp [hne]
    close := by rw [mem_drawerFrame]; simp
    html := by rw [mem_drawerFrame]; simp
    overlay := by
      cases b with
      | true =>
        refine Or.inr (Or.inl ⟨rfl, ?_, w.now + 10, ?_⟩)
        · rw [mem_drawerFrame]; simp
        · rw [drawerFrame_timers, htm]; rfl
      | false =>
        refine Or.inr (Or.inr ⟨rfl, ?_, w.now + 300, ?_⟩)
        · rw [mem_drawerFrame]; simp
        · rw [drawerFrame_timers, htm]; rfl
    queue := Or.inl ⟨by rw [drawerFrame_frames, hfr], by rw [drawerFrame_isDrawerOpen, hb]⟩
    others := fun n c hm => by
      rw [drawerFrame_others dom b w n c hm]
      exact hothers n c hm }

theorem tracking_frame (dom : Dom) (w0 w : World) (v : Bool) (hne : dom.bars ≠ dom.close)
    (ht : Tracking dom w0 w v) (hs : settledAt w Event.frame = true) :
    ∃ v2, Tracking dom w0 (runFrames dom w) v2 := by
  rcases ht.queue with ⟨hq, hv⟩ | ⟨i, hq, _⟩
  · refine ⟨v, ?_⟩
    have hrun : runFrames dom w = { w with frames := [] } := by
      simp [runFrames, hq]
    rw [hrun]
    exact
      { drawerFull := ht.drawerFull, drawerZero := ht.drawerZero, bars := ht.bars,
        close := ht.close, html := ht.html, overlay := ht.overlay,
        queue := Or.inl ⟨rfl, hv⟩, others := ht.others }
  · refine ⟨w.isDrawerOpen, ?_⟩
    have hrun : runFrames dom w = drawerFrame dom w.isDrawerOpen { w with frames := [] } := by
      simp [runFrames, hq, runFrameCallback]
    have htm : w.timers = [] := by
      simpa [settledAt, hq, FrameCallback.isDrawer] using hs
    rw [hrun]
    exact tracking_drawerFrame dom w0 { w with frames := [] } w.isDrawerOpen hne ht.others
      htm rfl rfl

theorem advance_of_no_timer (dom : Dom) (dt : Nat) (w : World) (h : w.timers = []) :
    advance dom dt w = { w with now := w.now + dt } := by
  cases w
  simp only at h
  subst h
  simp [advance]

theorem advance_of_one_timer (dom : Dom) (dt : Nat) (w : World) (t : Timer)
    (h : w.timers = [t]) :
    advance dom dt w =
      if t.due ≤ w.now + dt then
        runTimer dom t.callback { w with now := w.now + dt, timers := [] }
      else { w with now := w.now + dt } := by
  cases w with
  | mk fl cl fid nh fr tm nw =>
    simp only at h
    subst h
    by_cases hle : t.due ≤ nw + dt <;> simp [advance, List.filter, hle]

theorem tracking_advance (dom : Dom) (w0 w : World) (v : Bool) (dt : Nat)
    (ht : Tracking dom w0 w v) : Tracking dom w0 (advance dom dt w) v := by
  have hkeep : Tracking dom w0 { w with now := w.now + dt } v :=
    { drawerFull := ht.drawerFull, drawerZero := ht.drawerZero, bars := ht.bars,
      close := ht.close, html := ht.html, overlay := ht.overlay, queue := ht.queue,
      others := ht.others }
  rcases ht.overlay with ⟨h0, _, _⟩ | ⟨hv, hinv, d, hd⟩ | ⟨hv, hop, d, hd⟩
  · rw [advance_of_no_timer dom dt w h0]
    exact hkeep
  · rw [advance_of_one_timer dom dt w _ hd]
    by_cases hle : d ≤ w.now + dt
    · simp only [hle, if_true]
      exact
        { drawerFull := by rw [mem_runTimer]; simpa using ht.drawerFull
          drawerZero := by rw [mem_runTimer]; simpa using ht.drawerZero
          bars := by rw [mem_runTimer]; simpa using ht.bars
          close := by rw [mem_runTimer]; simpa using ht.close
          html := by rw [mem_runTimer]; simpa using ht.html
          overlay := Or.inl ⟨by simp, by rw [mem_runTimer]; simpa [hv] using hinv,
            by rw [mem_runTimer]; simp [hv]⟩
          queue := by simpa using ht.queue
          others := fun n c hm => by
            rw [mem_runTimer]
            have hno : ¬ (n = dom.overlay ∧ c = "opacity-0") :=
              ((managed_false_iff dom n c).1 hm).2.2.2.1
            simpa [hno] using ht.others n c hm }
    · simp only [hle, if_false]
      exact hkeep
  · rw [advance_of_one_timer dom dt w _ hd]
    by_cases hle : d ≤ w.now + dt
    · simp only [hle, if_true]
      exact
        { drawerFull := by rw [mem_runTimer]; simpa using ht.drawerFull
          drawerZero := by rw [mem_runTimer]; simpa using ht.drawerZero
          bars := by rw [mem_runTimer]; simpa using ht.bars
          close := by rw [mem_runTimer]; simpa using ht.close
          html := by rw [mem_runTimer]; simpa using ht.html
          overlay := Or.inl ⟨by simp, by rw [mem_runTimer]; simp [hv],
            by rw [mem_runTimer]; simpa [hv] using hop⟩
          queue := by simpa using ht.queue
          others := fun n c hm => by
            rw [mem_runTimer]
            have hno : ¬ (n = dom.overlay ∧ c = "invisible") :=
              ((managed_false_iff dom n c).1 hm).2.2.1
            simpa [hno] using ht.others n c hm }
    · simp only [hle, if_false]
      exact hkeep

theorem tracking_run (dom : Dom) (w0 : World) (hne : dom.bars ≠ dom.close) (es : List Event) :
    ∀ (w : World) (v : Bool), Tracking dom w0 w v →
      (∀ e ∈ es, e.isToggleFrameOrTime = true) → settled dom w es = true →
      ∃ v2, Tracking dom w0 (run dom w es) v2 := by
  induction es with
  | nil => intro w v ht _ _; exact ⟨v, ht⟩
  | cons e es ih =>
    intro w v ht hall hs
    simp only [settled, Bool.and_eq_true] at hs
    have hrest : ∀ x ∈ es, x.isToggleFrameOrTime = true :=
      fun x hx => hall x (List.mem_cons_of_mem _ hx)
    have he := hall e (List.mem_cons_self _ _)
    have hstep : ∃ v1, Tracking dom w0 (step dom w e) v1 := by
      cases e with
      | toggle => exact ⟨v, tracking_toggle dom w0 w v ht⟩
      | frame => exact tracking_frame dom w0 w v hne ht hs.1
      | advance dt => exact ⟨v, tracking_advance dom w0 w v dt ht⟩
      | key k => simp [Event.isToggleFrameOrTime] at he
      | linkClick view c => simp [Event.isToggleFrameOrTime] at he
      | observe a b => simp [Event.isToggleFrameOrTime] at he
    obtain ⟨v1, h1⟩ := hstep
    have : run dom w (e :: es) = run dom (step dom w e) es := rfl
    rw [this]
    exact ih (step dom w e) v1 h1 hrest hs.2

theorem flag_run (dom : Dom) (es : List Event) :
    ∀ w : World, (∀ e ∈ es, e.isToggleFrameOrTime = true) →
      (run dom w es).isDrawerOpen = (Bool.not^[countToggles es]) w.isDrawerOpen := by
  induction es with
  | nil => intro w _; rfl
  | cons e es ih =>
    intro w hall
    have hrest : ∀ x ∈ es, x.isToggleFrameOrTime = true :=
      fun x hx => hall x (List.mem_cons_of_mem _ hx)
    have he := hall e (List.mem_cons_self _ _)
    have : run dom w (e :: es) = run dom (step dom w e) es := rfl
    rw [this, ih _ hrest]
    cases e with
    | toggle =>
      simp [countToggles, step, toggleDrawer, Function.iterate_succ_apply]
    | frame => simp [countToggles, step]
    | advance dt =>
      have : (advance dom dt w).isDrawerOpen = w.isDrawerOpen := advance_isDrawerOpen dom dt w
      simp [countToggles, step, this]
    | key k => simp [Event.isToggleFrameOrTime] at he
    | linkClick view c => simp [Event.isToggleFrameOrTime] at he
    | observe a b => simp [Event.isToggleFrameOrTime] at he

/-- C3, counterexample: on a page whose overlay starts with `invisible` but
without `opacity-0`, opening and closing the drawer, with every frame and
timeout run, restores the flag but leaves `opacity-0` on the overlay. -/
theorem toggle_twice_changes_plain_overlay :
    countToggles openThenClose = 2 ∧
    (run sampleDom (World.initial pageWithPlainOverlay) openThenClose).idle = true ∧
    (run sampleDom (World.initial pageWithPlainOverlay) openThenClose).isDrawerOpen =
      (World.initial pageWithPlainOverlay).isDrawerOpen ∧
    (World.initial pageWithPlainOverlay).hasClass sampleDom.overlay "opacity-0" = false ∧
    (run sampleDom (World.initial pageWithPlainOverlay) openThenClose).hasClass
      sampleDom.overlay "opacity-0" = true := by
  decide

/-- C3, amended: start in a state with nothing pending whose class sets show
the drawer state that the flag holds.  Take any sequence of `toggleDrawer`
calls, animation frames and passages of time that contains exactly two
calls and in which no animation frame runs a drawer callback while a
timeout of an earlier drawer callback is still pending.  Once no frame and no
timeout is pending, the flag is as at the start and every element has
exactly the classes it had at the start. -/
theorem toggle_twice_restores_consistent_state (dom : Dom) (w0 : World) (es : List Event)
    (hidle : w0.idle = true) (hshow : w0.showsDrawer dom w0.isDrawerOpen = true)
    (hev : ∀ e ∈ es, e.isToggleFrameOrTime = true) (htwo : countToggles es = 2)
    (hset : settled dom w0 es = true) (hend : (run dom w0 es).idle = true) :
    (run dom w0 es).isDrawerOpen = w0.isDrawerOpen ∧
    ∀ (n : Node) (c : String), c ∈ (run dom w0 es).classes n ↔ c ∈ w0.classes n := by
  have hflag : (run dom w0 es).isDrawerOpen = w0.isDrawerOpen := by
    rw [flag_run dom es w0 hev, htwo]
    simp [Function.iterate_succ_apply]
  refine ⟨hflag, ?_⟩
  have hne := bars_ne_close_of_shows dom w0 _ hshow
  obtain ⟨v, ht⟩ := tracking_run dom w0 hne es w0 _ (tracking_start dom w0 hidle hshow) hev hset
  simp only [World.idle, Bool.and_eq_true, List.isEmpty_iff] at hend
  have hv : v = w0.isDrawerOpen := by
    rcases ht.queue with ⟨_, hv⟩ | ⟨i, hq, _⟩
    · rw [hv, hflag]
    · rw [hend.1] at hq; cases hq
  subst hv
  have hov : ("invisible" ∈ (run dom w0 es).classes dom.overlay ↔ w0.isDrawerOpen = false) ∧
      ("opacity-0" ∈ (run dom w0 es).classes dom.overlay ↔ w0.isDrawerOpen = false) := by
    rcases ht.overlay with ⟨_, h1, h2⟩ | ⟨_, _, d, hd⟩ | ⟨_, _, d, hd⟩
    · exact ⟨h1, h2⟩
    · rw [hend.2] at hd; cases hd
    · rw [hend.2] at hd; cases hd
  obtain ⟨s1, s2, s3, s4, s5, s6, s7⟩ := (showsDrawer_iff w0 dom _).1 hshow
  intro n c
  by_cases hm : managed dom n c = false
  · exact ht.others n c hm
  · rw [managed_false_iff] at hm
    by_cases c1 : n = dom.drawer ∧ c = "translate-x-full"
    · rw [c1.1, c1.2, ht.drawerFull, s2]
    by_cases c2 : n = dom.drawer ∧ c = "translate-x-0"
    · rw [c2.1, c2.2, ht.drawerZero, s1]
    by_cases c3 : n = dom.overlay ∧ c = "invisible"
    · rw [c3.1, c3.2, hov.1, s3]
    by_cases c4 : n = dom.overlay ∧ c = "opacity-0"
    · rw [c4.1, c4.2, hov.2, s4]
    by_cases c5 : n = dom.bars ∧ c = "hidden"
    · rw [c5.1, c5.2, ht.bars, s5]
    by_cases c6 : n = dom.close ∧ c = "hidden"
    · rw [c6.1, c6.2, ht.close, s6]
    by_cases c7 : n = dom.html ∧ c = "overflow-hidden"
    · rw [c7.1, c7.2, ht.html, s7]
    exact absurd ⟨c1, c2, c3, c4, c5, c6, c7⟩ hm

/-- C3 witness: on the sample page, opening and then closing the drawer,
each frame running 16 ms after its call and each timeout before the next
call, gives back the closed state. -/
theorem toggle_twice_restores_consistent_state_witness :
    (run sampleDom (World.initial samplePage) openThenClose).isDrawerOpen = false ∧
    ∀ (n : Node) (c : String),
      c ∈ (run sampleDom (World.initial samplePage) openThenClose).classes n ↔
        c ∈ (World.initial samplePage).classes n :=
  toggle_twice_restores_consistent_state sampleDom (World.initial samplePage) openThenClose
    (by decide) (by decide) (by decide) (by decide) (by decide) (by decide)

/-- C4, evaluated at the failing input: on the sample page, which starts in
the closed state, open, close and open again 116 ms after the closing frame.
When everything has run the flag says open, yet the timeout of the closing
frame has put `invisible` back on the overlay. -/
theorem reopened_drawer_has_invisible_overlay :
    (World.initial samplePage).showsDrawer sampleDom false = true ∧
    (run sampleDom (World.initial samplePage) openCloseReopen).idle = true ∧
    (run sampleDom (World.initial samplePage) openCloseReopen).isDrawerOpen = true ∧
    (run sampleDom (World.initial samplePage) openCloseReopen).hasClass
      sampleDom.overlay "invisible" = true ∧
    (run sampleDom (World.initial samplePage) openCloseReopen).showsDrawer sampleDom true
      = false := by
  decide

end MainWebsite
